import Mathlib

/-!
Shallow embedding of the REST dispatch pipeline of `src/lib/components/rest.ts`
(`createRestAction` and the `action` closure it returns), together with proofs
settling the specification claims about it.

Modelling conventions:
* A JS header object is a list of key/value pairs where a value of `none`
  represents a key that is present with the value `undefined`; a key absent
  from the list and a key present with `undefined` both read back as `none`
  (mirroring `obj[k] === undefined`).
* External collaborators that live outside `src/` (schema validator, uuid
  generator, `url.parse`, `querystring`, `encodeURIComponent`, the axios
  transport, `parseRestError`, the tracing context metadata, the constants
  module) are modelled as per-dispatch oracles collected in `Env`.
* Side effects (tracing-span lifecycle, logs, stats emissions, the transport
  call) are recorded in an explicit event trace returned next to the result.
-/

namespace GatewayRest

/-- Opaque caller-supplied argument object. -/
abbrev Args := String

/-- Opaque per-call auth arguments. -/
abbrev AuthArgs := String

/-- Opaque validation schema value. -/
abbrev Schema := String

/-- List of invalid fields reported by the schema validator. -/
abbrev InvalidParams := List String

/-- Query mapping passed to the serializer. -/
abbrev Query := List (String × String)

/-- JS header map: keys to string-or-undefined values. A pair with value
`none` is a key that is present but holds `undefined`. -/
abbrev Headers := List (String × Option String)

/-- Read a header: both an absent key and a present-but-undefined key give
`none`, mirroring `h[k] === undefined` in JS. -/
def hget (h : Headers) (k : String) : Option String :=
  match h.find? (fun p => p.1 == k) with
  | some p => p.2
  | none => none

/-- Write a header key (JS property assignment: the key becomes the given
value, old entries for the key are dropped). -/
def hset (h : Headers) (k : String) (v : Option String) : Headers :=
  h.filter (fun p => p.1 != k) ++ [(k, v)]

/-- JS `Object.assign(a, b)` / spread `{...a, ...b}`: every own key of `b`
(including keys holding `undefined`) overrides the entry in `a`. -/
def assign (a b : Headers) : Headers :=
  b.foldl (fun acc p => hset acc p.1 p.2) a

/-- `_.omitBy(h, _.isUndefined)`: drop every key whose value is undefined. -/
def omitUndefined (h : Headers) : Headers :=
  h.filter (fun p => p.2.isSome)

/-- Does the map contain a key whose value is `undefined`? -/
def hasUndefinedEntry (h : Headers) : Bool :=
  h.any (fun p => p.2.isNone)

/-- Keys of the map are pairwise distinct. Maps built by `hset`/`assign`
from literals always satisfy this. -/
def nodupKeys (h : Headers) : Prop :=
  (h.map Prod.fst).Nodup

/-- JS `v || d` for a possibly-undefined string: the empty string is falsy. -/
def jsOrStr (v : Option String) (d : String) : String :=
  match v with
  | some s => if s = "" then d else s
  | none => d

/-- JS truthiness of a possibly-undefined string. -/
def truthyStr (v : Option String) : Bool :=
  match v with
  | some s => s ≠ ""
  | none => false

/-- JS truthiness of a possibly-undefined number (`0` is falsy). -/
def truthyNat (v : Option Nat) : Bool :=
  match v with
  | some n => n ≠ 0
  | none => false

/-- Canonical normalized error shape `{status, code, message, details}`
produced by the error-transform hook or the fallback parser. -/
structure ParsedError where
  status : Option Nat := none
  code : Option String := none
  message : Option String := none
  details : Option String := none
deriving Repr, DecidableEq

/-- Details payload of a rejection: the structured validation details
object, or the raw details string of a normalized error. -/
inductive ErrorDetails where
  | invalidParams (title : String) (description : InvalidParams)
  | raw (s : String)
deriving Repr, DecidableEq

/-- The `error` field of a rejection as the caller observes it; every field
is optional because the three failure paths populate different subsets. -/
structure GatewayError where
  status : Option Nat := none
  code : Option String := none
  message : Option String := none
  details : Option ErrorDetails := none
  requestId : Option String := none
deriving Repr, DecidableEq

/-- A successful transport response `{data, headers, status}`. -/
structure TransportResponse where
  data : String
  headers : Headers := []
  status : Nat := 200
deriving Repr, DecidableEq

/-- A thrown transport error: it may carry an HTTP `status` and a
`response` payload. -/
structure RestError where
  status : Option Nat := none
  response : Option TransportResponse := none
deriving Repr, DecidableEq

/-- Axios request configuration: the `timeout` field is read explicitly by
the pipeline; remaining fields are kept as an opaque key/value list merged
with spread semantics. -/
structure AxiosConfig where
  timeout : Option Nat := none
  extra : List (String × String) := []
deriving Repr, DecidableEq

/-- Spread merge `{...a, ...b}` of two axios configs. -/
def mergeAxiosConfig (a b : AxiosConfig) : AxiosConfig :=
  { timeout := match b.timeout with
      | some t => some t
      | none => a.timeout
  , extra := b.extra.foldl
      (fun acc p => acc.filter (fun q => q.1 != p.1) ++ [p]) a.extra }

/-- An axios client instance as observable data: the parameters it was
built from plus a marker telling whether it is the shared default instance
built once at action-construction time (instance identity is not a value
in a pure embedding). -/
structure AxiosClient where
  timeout : Option Nat
  retries : Option Nat
  config : Option AxiosConfig
  isDefault : Bool
deriving Repr, DecidableEq

/-- `getAxiosClient(timeout, retries, config)` from `../utils/axios`
(outside `src/`): constructs a client from its parameters. The `isDefault`
flag marks the construction site (shared default vs per-call). -/
def getAxiosClient (timeout : Option Nat) (retries : Option Nat)
    (config : Option AxiosConfig) (isDefault : Bool) : AxiosClient :=
  ⟨timeout, retries, config, isDefault⟩

/-- An endpoint table entry: a bare base URL, or an extended descriptor
carrying a path plus optional per-endpoint axios overrides. -/
inductive EndpointData where
  | plain (url : String)
  | extended (path : String) (axiosConfig : Option AxiosConfig)
deriving Repr, DecidableEq

/-- Per-service endpoint table; the default entry lives under the literal
key `endpoint` (the source reads `endpoints?.endpoint`). -/
abbrev EndpointsConfig := List (String × EndpointData)

/-- Assoc-list read used for `_.get(endpoints, [key])`. -/
def alistGet (l : EndpointsConfig) (k : String) : Option EndpointData :=
  (l.find? (fun p => p.1 == k)).map (fun p => p.2)

/-- `config.endpoint`: absent, a logical endpoint name, or a selector
function over the table and the call arguments. -/
inductive EndpointSelector where
  | name (k : String)
  | choose (f : Option EndpointsConfig → Args → Option EndpointData)
  | absent

/-- `config.path`: a static string or a function of the path arguments. -/
inductive PathSpec where
  | fixed (s : String)
  | computed (f : Args → String)

/-- `proxyHeaders` option: either an injection function
`(inboundHeaders, actionType) → partial headers` or a static list of
header names to copy from the inbound headers. -/
inductive ProxyHeadersSpec where
  | fn (f : Headers → String → Headers)
  | list (names : List String)

/-- Result of an auth-header provider. The spec allows the provider to be
synchronous or asynchronous: `value` is a synchronous return (possibly
`undefined`), `promise` a pending asynchronous return whose eventual value
is `h`. A JS promise object has no own enumerable properties, so
`Object.assign` over an un-awaited promise copies nothing. -/
inductive AuthReturn where
  | value (h : Option Headers)
  | promise (h : Option Headers)

/-- Merge the auth provider result into the header map
(`Object.assign(actionHeaders, authHeaders)` — the source does not await
the provider). -/
def mergeAuthHeaders (target : Headers) (r : AuthReturn) : Headers :=
  match r with
  | AuthReturn.value (some h) => assign target h
  | AuthReturn.value none => target
  | AuthReturn.promise _ => target

/-- Parameters passed to an auth-header provider. -/
structure GetAuthHeadersParams where
  actionType : String
  serviceName : String
  requestHeaders : Headers
  authArgs : Option AuthArgs

/-- Body value produced by the parameter producer: a `Buffer`, a JS object
(carrying the result of `JSON.stringify`, which may throw), or any other
value (carrying its `String(...)` rendering). -/
inductive BodyValue where
  | buffer
  | jsObject (stringifyResult : Except Unit String)
  | plain (stringValue : String)

/-- Output of the user-supplied parameter producer: optional body, query
and header overrides. -/
structure ParamsOutput where
  body : Option BodyValue := none
  query : Option Query := none
  headers : Option Headers := none

/-- `config.paramsSerializer`: a function, or an object exposing a
`serialize` capability. -/
inductive ParamsSerializerSpec where
  | fn (f : Query → String)
  | obj (serialize : Query → String)

/-- Per-action static configuration (`ApiServiceRestActionConfig`). -/
structure ApiServiceRestActionConfig where
  method : String
  path : PathSpec
  endpoint : EndpointSelector := EndpointSelector.absent
  validationSchema : Option Schema := none
  timeout : Option Nat := none
  retries : Option Nat := none
  idempotency : Bool := false
  maxRedirects : Option Nat := none
  proxyHeaders : Option ProxyHeadersSpec := none
  getAuthHeaders : Option (GetAuthHeadersParams → AuthReturn) := none
  params : Option (Args → Headers → Except Unit (Option ParamsOutput)) := none
  transformResponseData : Option (String → Args → Headers → Except Unit String) := none
  transformResponseError : Option (TransportResponse → Args → Except Unit (Option ParsedError)) := none
  paramsSerializer : Option ParamsSerializerSpec := none

/-- Service-level gateway options (`GatewayApiOptions`); `sendStats` records
whether a custom stats sink is configured (the sink itself is an external
consumer, the emission is recorded as an event). -/
structure GatewayApiOptions where
  serviceName : Option String := none
  timeout : Option Nat := none
  axiosConfig : Option AxiosConfig := none
  validationSchema : Option Schema := none
  proxyHeaders : Option ProxyHeadersSpec := none
  getAuthHeaders : GetAuthHeadersParams → AuthReturn
  sendStats : Bool := false
  encodePathArgs : Bool := false

/-- Per-call invocation object (`ApiActionConfig`): arguments, request id,
inbound headers, per-call auth arguments and per-call timeout override. -/
structure ApiActionConfig where
  args : Args
  requestId : Option String := none
  headers : Headers := []
  authArgs : Option AuthArgs := none
  timeout : Option Nat := none

/-- Values of the `../constants` module (outside `src/`), treated as
parameters: the language header name, the default language, the gateway
version marker and the default proxy-header list. -/
structure Consts where
  defaultLangHeader : String := "accept-language"
  defaultLang : String := "ru"
  version : String := "0.0.0"
  defaultProxyHeaders : List String := []

/-- Per-dispatch oracle for every external collaborator the pipeline
calls: validator, uuid source, URL parsing, query serialization,
`encodeURIComponent`, tracing metadata, the transport outcome, the
fallback error parser and the response-size computation. -/
structure Env where
  validateArgs : Args → Schema → Option InvalidParams
  uuid : String
  urlHost : String → Option String
  encodePathParams : Args → Args
  getPathArgsProxy : Args → Bool → Args
  encodeURIComponent : String → String
  qsStringify : Option Query → String
  ctxMetadata : Headers
  transport : Except RestError TransportResponse
  parseRestError : RestError → String → Except Unit ParsedError
  responseSize : Option String → Nat
  consts : Consts

/-- Observable side effects of one dispatch, in order: tracing-span
lifecycle, logs, recoverable-error logs (`handleError`), pipeline-stage
markers, stats emissions and the transport call itself. -/
inductive Event where
  | ctxCreate (name : String)
  | ctxLog (msg : String)
  | ctxLogError (msg : String)
  | handleError (msg : String)
  | validationRun
  | endpointResolutionRun
  | headerAssemblyRun
  | ctxStats (responseStatus : Nat)
  | statsSink (restStatus : Nat) (responseSize : Nat)
  | transportRequest (client : AxiosClient) (headers : Headers)
  | ctxEnd
deriving Repr, DecidableEq

/-- A rejection value `{error, debugHeaders}`; `debugHeaders` is `none`
when the reject object literal carries no such key at all. -/
structure Rejection where
  error : GatewayError
  debugHeaders : Option Headers := none
deriving Repr, DecidableEq

/-- The dispatch outcome the caller observes. -/
inductive DispatchResult where
  | resolved (responseData : String) (debugHeaders : Headers)
  | rejected (r : Rejection)
deriving Repr, DecidableEq

/-- The payload of a resolved dispatch, if it resolved. -/
def resolvedDataOf : DispatchResult → Option String
  | DispatchResult.resolved d _ => some d
  | DispatchResult.rejected _ => none

/-- The rejection of a failed dispatch, if it rejected. -/
def rejectionOf : DispatchResult → Option Rejection
  | DispatchResult.resolved _ _ => none
  | DispatchResult.rejected r => some r

/-! ## The pipeline (translated from `src/lib/components/rest.ts`) -/

/-- The closure produced by `createRestAction` before any call arrives: the
captured inputs plus the precomputed base timeout and the shared default
axios client (lines 72-73). -/
structure RestActionClosure where
  endpoints : Option EndpointsConfig
  config : ApiServiceRestActionConfig
  serviceKey : String
  actionName : String
  options : GatewayApiOptions
  timeout : Option Nat
  defaultAxiosClient : AxiosClient

/-- `createRestAction(endpoints, config, serviceKey, actionName, options)`:
computes `timeout = config?.timeout ?? options?.timeout` and builds the
default axios client once. The `ErrorConstructor` argument only wraps
logged recoverable errors and carries no data we track. -/
def createRestAction (endpoints : Option EndpointsConfig)
    (config : ApiServiceRestActionConfig) (serviceKey : String)
    (actionName : String) (options : GatewayApiOptions) : RestActionClosure :=
  let timeout := config.timeout <|> options.timeout
  { endpoints := endpoints
  , config := config
  , serviceKey := serviceKey
  , actionName := actionName
  , options := options
  , timeout := timeout
  , defaultAxiosClient := getAxiosClient timeout config.retries options.axiosConfig true }

/-- Endpoint resolution (lines 117-123): start from the default entry
`endpoints?.endpoint`; a selector function replaces it with its result; a
truthy endpoint name replaces it with the table lookup of that name. -/
def resolveEndpointData (endpoints : Option EndpointsConfig)
    (sel : EndpointSelector) (args : Args) : Option EndpointData :=
  match sel with
  | EndpointSelector.choose f => f endpoints args
  | EndpointSelector.name k =>
      if k = "" then endpoints.bind (fun e => alistGet e ("endpoint"))
      else endpoints.bind (fun e => alistGet e k)
  | EndpointSelector.absent => endpoints.bind (fun e => alistGet e ("endpoint"))

/-- The pass-through copy loop (lines 175-179): for every name in the
combined proxy-header list, copy the inbound header only when the key
currently reads back as `undefined`. -/
def passthroughCopy (names : List String) (requestHeaders : Headers)
    (acc : Headers) : Headers :=
  names.foldl
    (fun acc name =>
      if (hget acc name).isNone then hset acc name (hget requestHeaders name)
      else acc)
    acc

/-- The seed headers (lines 154-161): inferred host (possibly undefined),
accept headers, the resolved language and the gateway version marker. -/
def seedHeaders (host : Option String) (lang version : String) : Headers :=
  [("host", host),
   ("accept", some ("application/json, */*")),
   ("accept-encoding", some ("gzip, deflate")),
   ("accept-language", some lang),
   ("x-gateway-version", some version)]

/-- The function form of a proxy-headers option merged via `Object.assign`
(lines 163-164 and 169-170); the list form and an absent option leave the
map unchanged at this step. -/
def applyProxyFn (spec : Option ProxyHeadersSpec) (requestHeaders : Headers)
    (acc : Headers) : Headers :=
  match spec with
  | some (ProxyHeadersSpec.fn f) => assign acc (f requestHeaders ("rest"))
  | _ => acc

/-- The list form of a proxy-headers option pushed onto the static
pass-through list (lines 165-166 and 171-172). -/
def proxyListOf (spec : Option ProxyHeadersSpec) : List String :=
  match spec with
  | some (ProxyHeadersSpec.list l) => l
  | _ => []

/-- Header composition before the final `_.omitBy` prune (lines 152-195):
seed headers, service- and action-level proxy-header injection,
pass-through copy, request-id, idempotency key, and the auth merge. -/
def composePreOmit (env : Env) (opts : GatewayApiOptions)
    (cfg : ApiServiceRestActionConfig) (requestHeaders : Headers)
    (requestId : Option String) (host : Option String)
    (lang serviceName : String) (authArgs : Option AuthArgs) : Headers :=
  let seeded := seedHeaders host lang env.consts.version
  let afterServiceFn := applyProxyFn opts.proxyHeaders requestHeaders seeded
  let afterActionFn := applyProxyFn cfg.proxyHeaders requestHeaders afterServiceFn
  let proxyList :=
    env.consts.defaultProxyHeaders ++ proxyListOf opts.proxyHeaders ++
      proxyListOf cfg.proxyHeaders
  let afterPassthrough := passthroughCopy proxyList requestHeaders afterActionFn
  let afterRequestId :=
    if truthyStr requestId then hset afterPassthrough ("x-request-id") requestId
    else afterPassthrough
  let afterIdempotency :=
    if cfg.idempotency then
      hset afterRequestId ("idempotency-key")
        (some (jsOrStr (hget requestHeaders ("idempotency-key")) env.uuid))
    else afterRequestId
  let provider := cfg.getAuthHeaders.getD opts.getAuthHeaders
  mergeAuthHeaders afterIdempotency
    (provider { actionType := "rest", serviceName := serviceName
              , requestHeaders := requestHeaders, authArgs := authArgs })

/-- Full header composition including the `_.omitBy(_, _.isUndefined)`
prune (line 197). -/
def composeActionHeaders (env : Env) (opts : GatewayApiOptions)
    (cfg : ApiServiceRestActionConfig) (requestHeaders : Headers)
    (requestId : Option String) (host : Option String)
    (lang serviceName : String) (authArgs : Option AuthArgs) : Headers :=
  omitUndefined
    (composePreOmit env opts cfg requestHeaders requestId host lang serviceName authArgs)

/-- The parameter-producer step (lines 199-207): a thrown error is caught
and logged, leaving `params` undefined. -/
def paramsOf (cfg : ApiServiceRestActionConfig) (args : Args)
    (actionHeaders : Headers) : Option ParamsOutput × List Event :=
  match cfg.params with
  | none => (none, [])
  | some f =>
    match f args actionHeaders with
    | Except.ok v => (v, [])
    | Except.error _ => (none, [Event.handleError ("Getting config params failed")])

/-- `getConfigSerializerFunction` (lines 54-62). -/
def getConfigSerializerFunction (config : ApiServiceRestActionConfig) :
    Option (Query → String) :=
  match config.paramsSerializer with
  | some (ParamsSerializerSpec.fn f) => some f
  | some (ParamsSerializerSpec.obj s) => some s
  | none => none

/-- Debug body preview (lines 211-232): a `Buffer` renders as the fixed
placeholder, an object is JSON-encoded (which may throw) then
percent-encoded, anything else is stringified then percent-encoded; the
preview is kept only when shorter than 256 characters; a throw is caught
and logged and the preview stays undefined. -/
def requestBodyOf (env : Env) (body : Option BodyValue) :
    Option String × List Event :=
  let enc : Except Unit String :=
    match body with
    | some BodyValue.buffer => Except.ok ("[Buffer]")
    | some (BodyValue.jsObject js) => js.map env.encodeURIComponent
    | some (BodyValue.plain s) => Except.ok (env.encodeURIComponent s)
    | none => Except.ok (env.encodeURIComponent ("undefined"))
  match enc with
  | Except.ok e => (if e.length < 256 then some e else none, [])
  | Except.error _ => (none, [Event.handleError ("Stringify request body failed")])

/-- The base path of the resolved endpoint (lines 139-141). -/
def actionEndpointOf : EndpointData → String
  | EndpointData.plain u => u
  | EndpointData.extended p _ => p

/-- The per-endpoint axios overrides (lines 142-144): note that this is
always an object — the source falls back to the empty object literal in
both the non-extended and the missing-config case. -/
def endpointAxiosConfigOf : EndpointData → AxiosConfig
  | EndpointData.plain _ => {}
  | EndpointData.extended _ none => {}
  | EndpointData.extended _ (some c) => c

/-- Every JS object, the empty object included, is truthy. The source
tests `actionConfig.timeout || endpointAxiosConfig` where
`endpointAxiosConfig` is always an object. -/
def jsObjectTruthy (_ : AxiosConfig) : Bool := true

/-- The outbound URL (lines 146-151): endpoint base plus the static or
computed action path (path-argument encoding is an external helper). -/
def actionURLOf (A : RestActionClosure) (c : ApiActionConfig) (env : Env)
    (ed : EndpointData) : String :=
  let pathArgs :=
    if A.config.validationSchema.isSome then env.encodePathParams c.args
    else env.getPathArgsProxy c.args A.options.encodePathArgs
  let actionPath :=
    match A.config.path with
    | PathSpec.fixed s => s
    | PathSpec.computed f => f pathArgs
  actionEndpointOf ed ++ actionPath

/-- The composed outbound headers of a dispatch that resolved `ed`. -/
def composedOf (A : RestActionClosure) (c : ApiActionConfig) (env : Env)
    (lang serviceName : String) (ed : EndpointData) : Headers :=
  composeActionHeaders env A.options A.config c.headers c.requestId
    (env.urlHost (actionURLOf A c env ed)) lang serviceName c.authArgs

/-- Transport selection (lines 249-263): the condition
`actionConfig.timeout || endpointAxiosConfig` decides between the shared
default client and a freshly constructed per-call client; the effective
timeout is `actionConfig.timeout ?? config.timeout ??
endpointAxiosConfig.timeout ?? timeout`. -/
def clientOf (A : RestActionClosure) (c : ApiActionConfig)
    (ed : EndpointData) : AxiosClient :=
  let endpointAxiosConfig := endpointAxiosConfigOf ed
  if truthyNat c.timeout || jsObjectTruthy endpointAxiosConfig then
    let customActionTimeout :=
      c.timeout <|> A.config.timeout <|> endpointAxiosConfig.timeout <|> A.timeout
    let customActionAxiosConfig :=
      mergeAxiosConfig (A.options.axiosConfig.getD {}) endpointAxiosConfig
    getAxiosClient customActionTimeout A.config.retries
      (some customActionAxiosConfig) false
  else A.defaultAxiosClient

/-- Prefix a result's event trace. -/
def prependEvents (ev : List Event) (r : DispatchResult × List Event) :
    DispatchResult × List Event :=
  (r.1, ev ++ r.2)

/-- The response-transform step (lines 297-309): apply the hook when
configured; a throw is caught and logged and the untransformed payload is
kept (the assignment to `response.data` never ran). -/
def transformedResponseData (cfg : ApiServiceRestActionConfig) (args : Args)
    (response : TransportResponse) : String × List Event :=
  match cfg.transformResponseData with
  | none => (response.data, [])
  | some f =>
    match f response.data args response.headers with
    | Except.ok d => (d, [Event.ctxLog ("Transformed response data")])
    | Except.error _ =>
        (response.data, [Event.handleError ("Transform response data failed")])

/-- The stats emission of a successful dispatch (lines 311-327): the
custom sink with `restStatus: 200` when configured, else `ctx.stats` with
`responseStatus: 200` — the literal 200 regardless of the response. -/
def successStatsEvent (opts : GatewayApiOptions) (env : Env)
    (respData : String) : Event :=
  if opts.sendStats then Event.statsSink 200 (env.responseSize (some respData))
  else Event.ctxStats 200

/-- Success continuation (lines 292-332): apply the response-transform
hook, emit stats, then log, close the span and resolve. -/
def successFlow (cfg : ApiServiceRestActionConfig) (opts : GatewayApiOptions)
    (env : Env) (args : Args) (response : TransportResponse)
    (debugHeaders : Headers) : DispatchResult × List Event :=
  let td := transformedResponseData cfg args response
  let respData := td.1
  (DispatchResult.resolved respData debugHeaders,
   td.2 ++ [successStatsEvent opts env respData,
            Event.ctxLog ("Request completed"), Event.ctxEnd])

/-- Error normalization (lines 334-366): the error-transform hook runs
when the thrown error carries a `response` and the hook is configured (its
throw is caught and logged); if it produced nothing, the generic
`parseRestError` fallback runs (its own throw is caught and logged,
leaving the normalized error undefined). -/
def normalizeRestError (cfg : ApiServiceRestActionConfig) (env : Env)
    (args : Args) (lang : String) (err : RestError) :
    Option ParsedError × List Event :=
  let hd :=
    match err.response, cfg.transformResponseError with
    | some resp, some f =>
      match f resp args with
      | Except.ok p => (p, [Event.ctxLog ("Transformed response error")])
      | Except.error _ =>
          ((none : Option ParsedError),
           [Event.handleError ("Transform response error failed")])
    | _, _ => (none, [])
  match hd.1 with
  | some p => (some p, hd.2)
  | none =>
    match env.parseRestError err lang with
    | Except.ok p => (some p, hd.2)
    | Except.error _ => (none, hd.2 ++ [Event.handleError ("Error parse rest error")])

/-- Resolved status (line 368):
`_.get(parsedError, 'status') || _.get(error, 'status', 500)` — the
normalized status when truthy, else the raw status when present, else 500. -/
def resolvedRestStatus (parsedStatus rawStatus : Option Nat) : Nat :=
  match parsedStatus with
  | some s => if s = 0 then rawStatus.getD 500 else s
  | none => rawStatus.getD 500

/-- The stats emission of a failed dispatch (lines 370-390): the custom
sink with `restStatus` set to the resolved status when configured, else
`ctx.stats` with `responseStatus` set to it. -/
def failureStatsEvent (opts : GatewayApiOptions) (env : Env)
    (responseStatus : Nat) (err : RestError) : Event :=
  if opts.sendStats then
    Event.statsSink responseStatus
      (env.responseSize (err.response.map TransportResponse.data))
  else Event.ctxStats responseStatus

/-- The `error` field of a transport-failure rejection (lines 400-403):
`{...parsedError, requestId}`. -/
def failureGatewayError (parsedError : Option ParsedError)
    (requestId : Option String) : GatewayError :=
  { status := parsedError.bind ParsedError.status
  , code := parsedError.bind ParsedError.code
  , message := parsedError.bind ParsedError.message
  , details := (parsedError.bind ParsedError.details).map ErrorDetails.raw
  , requestId := requestId }

/-- Failure continuation (lines 333-404): normalize the error, emit stats
with the resolved status, log the failure, close the span and reject with
`{error: {...parsedError, requestId}, debugHeaders}`. -/
def failureFlow (cfg : ApiServiceRestActionConfig) (opts : GatewayApiOptions)
    (env : Env) (args : Args) (lang : String) (requestId : Option String)
    (err : RestError) (debugHeaders : Headers) : DispatchResult × List Event :=
  let pr := normalizeRestError cfg env args lang err
  let parsedError := pr.1
  let responseStatus :=
    resolvedRestStatus (parsedError.bind ParsedError.status) err.status
  (DispatchResult.rejected
    { error := failureGatewayError parsedError requestId
    , debugHeaders := some debugHeaders },
   pr.2 ++ [failureStatsEvent opts env responseStatus err,
            Event.ctxLogError ("Request failed"), Event.ctxEnd])

/-- The dispatch once an endpoint resolved (lines 139-404): build the URL,
compose headers, run the parameter producer, build query/body and the
debug headers, select the transport client, perform the call and run the
success or failure continuation. -/
def actionWithEndpoint (A : RestActionClosure) (c : ApiActionConfig) (env : Env)
    (lang serviceName : String) (ed : EndpointData) :
    DispatchResult × List Event :=
  let cfg := A.config
  let opts := A.options
  let args := c.args
  let actionURL := actionURLOf A c env ed
  let actionHeaders := composedOf A c env lang serviceName ed
  let pr := paramsOf cfg args actionHeaders
  let body := pr.1.bind ParamsOutput.body
  let query := pr.1.bind ParamsOutput.query
  let headers := (pr.1.bind ParamsOutput.headers).getD actionHeaders
  let serializer := getConfigSerializerFunction cfg
  let preparedQuery :=
    match serializer, query with
    | some f, some q => f q
    | _, _ => env.qsStringify query
  let requestUrl := actionURL ++ (if query.isSome then "?" ++ preparedQuery else "")
  let rb := requestBodyOf env body
  let requestBody := rb.1
  let debugHeadersBase : Headers :=
    assign []
      [("x-api-request-method", some cfg.method),
       ("x-api-request-url", some requestUrl),
       ("x-api-request-body", if truthyStr requestBody then requestBody else none),
       ("x-api-request-lang", some lang),
       ("x-request-id", c.requestId),
       ("x-gateway-version", some env.consts.version)]
  let debugHeaders :=
    if truthyStr (hget headers ("content-type")) then
      hset debugHeadersBase ("x-api-content-type") (hget headers ("content-type"))
    else debugHeadersBase
  let axiosClient := clientOf A c ed
  let transmittedHeaders := assign env.ctxMetadata headers
  let pre :=
    [Event.headerAssemblyRun] ++ pr.2 ++ rb.2 ++
    [Event.ctxLog ("Starting request"),
     Event.transportRequest axiosClient transmittedHeaders]
  match env.transport with
  | Except.ok response =>
      prependEvents pre (successFlow cfg opts env args response debugHeaders)
  | Except.error err =>
      prependEvents pre (failureFlow cfg opts env args lang c.requestId err debugHeaders)

/-- The dispatch after validation passed (lines 117-137): resolve the
endpoint; when nothing resolves, log, close the span and reject with the
`ENDPOINT_NOT_FOUND` config error (whose reject object carries no
`debugHeaders` key). -/
def actionAfterValidation (A : RestActionClosure) (c : ApiActionConfig)
    (env : Env) (lang serviceName : String) : DispatchResult × List Event :=
  match resolveEndpointData A.endpoints A.config.endpoint c.args with
  | none =>
    let errorText :=
      "Gateway config error. Endpoint has been not found in service \"" ++
        A.serviceKey ++ "\""
    (DispatchResult.rejected
      { error :=
        { status := some 400
        , code := some ("ENDPOINT_NOT_FOUND")
        , message := some errorText }
      , debugHeaders := none },
     [Event.endpointResolutionRun, Event.ctxLog errorText, Event.ctxEnd])
  | some ed =>
      prependEvents [Event.endpointResolutionRun]
        (actionWithEndpoint A c env lang serviceName ed)

/-- One dispatch of the returned `action` closure (lines 76-405): open the
tracing span, validate the arguments when a schema is configured — an
invalid result logs, closes the span and rejects with the
`INVALID_PARAMS` error — then continue with endpoint resolution. -/
def action (A : RestActionClosure) (c : ApiActionConfig) (env : Env) :
    DispatchResult × List Event :=
  let lang := jsOrStr (hget c.headers env.consts.defaultLangHeader) env.consts.defaultLang
  let serviceName := jsOrStr A.options.serviceName A.serviceKey
  let evHead :=
    [Event.ctxCreate ("Gateway " ++ serviceName ++ " " ++ A.actionName ++ " [rest]"),
     Event.ctxLog ("Initiating request")]
  match A.config.validationSchema <|> A.options.validationSchema with
  | some schema =>
    match env.validateArgs c.args schema with
    | some invalidParams =>
      (DispatchResult.rejected
        { error :=
          { status := some 400
          , message := some ("Validation failed")
          , code := some ("INVALID_PARAMS")
          , details := some (ErrorDetails.invalidParams ("Invalid params") invalidParams) }
        , debugHeaders := some [] },
       evHead ++ [Event.validationRun, Event.ctxLog ("Invalid params"), Event.ctxEnd])
    | none =>
      prependEvents (evHead ++ [Event.validationRun])
        (actionAfterValidation A c env lang serviceName)
  | none => prependEvents evHead (actionAfterValidation A c env lang serviceName)

/-- Validation passes for this dispatch: either no schema is resolved or
the validator reports nothing invalid. -/
def validationPasses (A : RestActionClosure) (c : ApiActionConfig)
    (env : Env) : Prop :=
  match A.config.validationSchema <|> A.options.validationSchema with
  | some schema => env.validateArgs c.args schema = none
  | none => True

/-! ## Trace observations -/

/-- The status carried by a stats emission event, if the event is one. -/
def statsStatusOfEv : Event → Option Nat
  | Event.ctxStats s => some s
  | Event.statsSink s _ => some s
  | _ => none

/-- The header map carried by a transport-call event, if the event is one. -/
def transportHeaderOfEv : Event → Option Headers
  | Event.transportRequest _ h => some h
  | _ => none

/-- The client carried by a transport-call event, if the event is one. -/
def transportClientOfEv : Event → Option AxiosClient
  | Event.transportRequest c _ => some c
  | _ => none

/-- Is the event the span close? -/
def isEndEv : Event → Bool
  | Event.ctxEnd => true
  | _ => false

/-- Is the event the endpoint-resolution stage marker? -/
def isEndpointResolutionEv : Event → Bool
  | Event.endpointResolutionRun => true
  | _ => false

/-- Is the event the header-assembly stage marker? -/
def isHeaderAssemblyEv : Event → Bool
  | Event.headerAssemblyRun => true
  | _ => false

/-- The statuses of all stats emissions of a trace, in order. -/
def statsStatuses (l : List Event) : List Nat :=
  l.filterMap statsStatusOfEv

/-- The header map of the first transport call of a trace, if any. -/
def transportHeadersOf (l : List Event) : Option Headers :=
  (l.filterMap transportHeaderOfEv).head?

/-- The clients of all transport calls of a trace, in order. -/
def transportClientsOf (l : List Event) : List AxiosClient :=
  l.filterMap transportClientOfEv

/-- How often the span was closed. -/
def countEnd (l : List Event) : Nat :=
  l.countP isEndEv

/-- Did a transport call happen? -/
def hasTransportCall (l : List Event) : Bool :=
  !(l.filterMap transportHeaderOfEv).isEmpty

/-- A trace fragment with no stats emission, no span close and no
transport call. -/
def neutralEvents (l : List Event) : Prop :=
  statsStatuses l = [] ∧ countEnd l = 0 ∧ l.filterMap transportHeaderOfEv = []

/-! ## Helper lemmas: header maps -/

theorem hget_hset_self (h : Headers) (k : String) (v : Option String) :
    hget (hset h k v) k = v := by
  induction h with
  | nil => simp [hget, hset]
  | cons p t ih =>
    unfold hset at ih ⊢
    by_cases hp : p.1 = k
    · rw [List.filter_cons_of_neg (by simp [hp])]
      exact ih
    · rw [List.filter_cons_of_pos (by simp [hp]), List.cons_append]
      unfold hget
      rw [List.find?_cons_of_neg _ (by simp [hp])]
      exact ih

theorem hget_hset_ne (h : Headers) (k k' : String) (v : Option String)
    (hne : k' ≠ k) : hget (hset h k' v) k = hget h k := by
  induction h with
  | nil => simp [hget, hset, hne]
  | cons p t ih =>
    unfold hset at ih ⊢
    by_cases hp : p.1 = k'
    · rw [List.filter_cons_of_neg (by simp [hp])]
      rw [ih]
      unfold hget
      rw [List.find?_cons_of_neg _ (by simp [hp, hne])]
    · rw [List.filter_cons_of_pos (by simp [hp]), List.cons_append]
      by_cases hx : p.1 = k
      · unfold hget
        rw [List.find?_cons_of_pos _ (by simp [hx]), List.find?_cons_of_pos _ (by simp [hx])]
      · unfold hget
        rw [List.find?_cons_of_neg _ (by simp [hx]), List.find?_cons_of_neg _ (by simp [hx])]
        exact ih

theorem assign_nil (a : Headers) : assign a [] = a := rfl

theorem assign_cons (a : Headers) (p : String × Option String)
    (t : Headers) : assign a (p :: t) = assign (hset a p.1 p.2) t := rfl

theorem hget_assign_of_not_memKey (a b : Headers) (x : String)
    (hx : x ∉ b.map Prod.fst) : hget (assign a b) x = hget a x := by
  induction b generalizing a with
  | nil => rfl
  | cons p t ih =>
    rw [assign_cons]
    simp only [List.map_cons, List.mem_cons] at hx
    push_neg at hx
    rw [ih _ hx.2, hget_hset_ne _ _ _ _ (fun h => hx.1 h.symm)]

theorem hget_assign_right_of_some (a b : Headers) (x : String) (v : String)
    (hnd : nodupKeys b) (hv : hget b x = some v) :
    hget (assign a b) x = some v := by
  induction b generalizing a with
  | nil => simp [hget] at hv
  | cons p t ih =>
    rw [assign_cons]
    unfold nodupKeys at hnd
    simp only [List.map_cons, List.nodup_cons] at hnd
    by_cases hp : p.1 = x
    · unfold hget at hv
      rw [List.find?_cons_of_pos _ (by simp [hp])] at hv
      have hv2 : p.2 = some v := hv
      rw [hget_assign_of_not_memKey _ _ _ (hp ▸ hnd.1), hp, hget_hset_self]
      exact hv2
    · unfold hget at hv
      rw [List.find?_cons_of_neg _ (by simp [hp])] at hv
      exact ih _ hnd.2 hv

theorem hget_omitUndefined_of_some (h : Headers) (x : String) (v : String)
    (hv : hget h x = some v) : hget (omitUndefined h) x = some v := by
  induction h with
  | nil => simp [hget] at hv
  | cons p t ih =>
    unfold omitUndefined at ih ⊢
    by_cases hp : p.1 = x
    · unfold hget at hv
      rw [List.find?_cons_of_pos _ (by simp [hp])] at hv
      have hv2 : p.2 = some v := hv
      rw [List.filter_cons_of_pos (by simp [hv2])]
      unfold hget
      rw [List.find?_cons_of_pos _ (by simp [hp])]
      exact hv2
    · unfold hget at hv
      rw [List.find?_cons_of_neg _ (by simp [hp])] at hv
      by_cases hs : p.2.isSome
      · rw [List.filter_cons_of_pos (by simp [hs])]
        unfold hget
        rw [List.find?_cons_of_neg _ (by simp [hp])]
        exact ih hv
      · rw [List.filter_cons_of_neg (by simp [hs])]
        exact ih hv

theorem passthroughCopy_preserves (names : List String) (rh acc : Headers)
    (x : String) (v : String) (hv : hget acc x = some v) :
    hget (passthroughCopy names rh acc) x = some v := by
  induction names generalizing acc with
  | nil => exact hv
  | cons n t ih =>
    unfold passthroughCopy at ih ⊢
    rw [List.foldl_cons]
    by_cases hn : n = x
    · subst hn
      rw [hv, if_neg (by simp)]
      exact ih _ hv
    · by_cases hc : (hget acc n).isNone
      · rw [if_pos hc]
        exact ih _ (by rw [hget_hset_ne _ _ _ _ hn]; exact hv)
      · rw [if_neg hc]
        exact ih _ hv

theorem nodupKeys_hset (h : Headers) (k : String) (v : Option String)
    (hnd : nodupKeys h) : nodupKeys (hset h k v) := by
  unfold nodupKeys hset at *
  rw [List.map_append]
  apply List.Nodup.append
  · exact List.Nodup.sublist (List.Sublist.map _ (List.filter_sublist h)) hnd
  · simp
  · intro a ha hb
    simp only [List.map_cons, List.map_nil, List.mem_singleton] at hb
    subst hb
    simp only [List.mem_map] at ha
    obtain ⟨p, hp, hpk⟩ := ha
    rw [List.mem_filter] at hp
    simp [hpk] at hp

theorem nodupKeys_assign (a b : Headers) (hnd : nodupKeys a) :
    nodupKeys (assign a b) := by
  induction b generalizing a with
  | nil => exact hnd
  | cons p t ih => rw [assign_cons]; exact ih _ (nodupKeys_hset _ _ _ hnd)

theorem nodupKeys_passthroughCopy (names : List String) (rh acc : Headers)
    (hnd : nodupKeys acc) : nodupKeys (passthroughCopy names rh acc) := by
  induction names generalizing acc with
  | nil => exact hnd
  | cons n t ih =>
    unfold passthroughCopy at ih ⊢
    rw [List.foldl_cons]
    by_cases hc : (hget acc n).isNone
    · rw [if_pos hc]; exact ih _ (nodupKeys_hset _ _ _ hnd)
    · rw [if_neg hc]; exact ih _ hnd

theorem nodupKeys_omitUndefined (h : Headers) (hnd : nodupKeys h) :
    nodupKeys (omitUndefined h) := by
  unfold nodupKeys omitUndefined at *
  exact List.Nodup.sublist (List.Sublist.map _ (List.filter_sublist h)) hnd

theorem nodupKeys_mergeAuthHeaders (t : Headers) (r : AuthReturn)
    (hnd : nodupKeys t) : nodupKeys (mergeAuthHeaders t r) := by
  cases r with
  | value h =>
    cases h with
    | none => exact hnd
    | some hh => exact nodupKeys_assign _ _ hnd
  | promise h => exact hnd

theorem hasUndef_hset (a : Headers) (k : String) (v : Option String)
    (ha : hasUndefinedEntry a = false) (hv : v.isSome) :
    hasUndefinedEntry (hset a k v) = false := by
  unfold hasUndefinedEntry at ha ⊢
  unfold hset
  rw [List.any_append, Bool.or_eq_false_iff]
  refine ⟨?_, ?_⟩
  · rw [List.any_eq_false] at ha ⊢
    intro p hp
    exact ha p (List.mem_of_mem_filter hp)
  · simp only [List.any_cons, List.any_nil, Bool.or_false]
    cases v with
    | none => simp at hv
    | some s => simp

theorem hasUndef_assign (a b : Headers)
    (ha : hasUndefinedEntry a = false) (hb : ∀ p ∈ b, p.2.isSome = true) :
    hasUndefinedEntry (assign a b) = false := by
  induction b generalizing a with
  | nil => exact ha
  | cons p t ih =>
    rw [assign_cons]
    exact ih _ (hasUndef_hset _ _ _ ha (hb p (List.mem_cons_self _ _)))
      (fun q hq => hb q (List.mem_cons_of_mem _ hq))

theorem mem_omitUndefined_isSome (h : Headers) (p : String × Option String)
    (hp : p ∈ omitUndefined h) : p.2.isSome = true := by
  unfold omitUndefined at hp
  exact (List.mem_filter.mp hp).2

theorem hasUndef_omitUndefined (h : Headers) :
    hasUndefinedEntry (omitUndefined h) = false := by
  unfold hasUndefinedEntry
  rw [List.any_eq_false]
  intro p hp
  have hs := mem_omitUndefined_isSome h p hp
  cases hv : p.2 with
  | none => rw [hv] at hs; simp at hs
  | some s => simp [hv]

theorem nodupKeys_seedHeaders (host : Option String) (lang version : String) :
    nodupKeys (seedHeaders host lang version) := by
  show (["host", "accept", "accept-encoding", "accept-language",
         "x-gateway-version"] : List String).Nodup
  decide

theorem nodupKeys_applyProxyFn (spec : Option ProxyHeadersSpec)
    (rh acc : Headers) (hnd : nodupKeys acc) :
    nodupKeys (applyProxyFn spec rh acc) := by
  unfold applyProxyFn
  split
  · exact nodupKeys_assign _ _ hnd
  · exact hnd

theorem nodupKeys_composePreOmit (env : Env) (opts : GatewayApiOptions)
    (cfg : ApiServiceRestActionConfig) (rh : Headers) (rid : Option String)
    (host : Option String) (lang sn : String) (aa : Option AuthArgs) :
    nodupKeys (composePreOmit env opts cfg rh rid host lang sn aa) := by
  simp only [composePreOmit]
  apply nodupKeys_mergeAuthHeaders
  have h3 : nodupKeys
      (passthroughCopy
        (env.consts.defaultProxyHeaders ++ proxyListOf opts.proxyHeaders ++
          proxyListOf cfg.proxyHeaders) rh
        (applyProxyFn cfg.proxyHeaders rh
          (applyProxyFn opts.proxyHeaders rh
            (seedHeaders host lang env.consts.version)))) :=
    nodupKeys_passthroughCopy _ _ _
      (nodupKeys_applyProxyFn _ _ _
        (nodupKeys_applyProxyFn _ _ _ (nodupKeys_seedHeaders _ _ _)))
  split
  · apply nodupKeys_hset
    split
    · exact nodupKeys_hset _ _ _ h3
    · exact h3
  · split
    · exact nodupKeys_hset _ _ _ h3
    · exact h3

/-! ## Helper lemmas: event traces -/

theorem neutralEvents_nil : neutralEvents [] := by
  refine ⟨rfl, rfl, rfl⟩

theorem neutralEvents_append (a b : List Event)
    (ha : neutralEvents a) (hb : neutralEvents b) : neutralEvents (a ++ b) := by
  obtain ⟨ha1, ha2, ha3⟩ := ha
  obtain ⟨hb1, hb2, hb3⟩ := hb
  refine ⟨?_, ?_, ?_⟩
  · unfold statsStatuses at *
    rw [List.filterMap_append, ha1, hb1]; rfl
  · unfold countEnd at *
    rw [List.countP_append, ha2, hb2]
  · rw [List.filterMap_append, ha3, hb3]; rfl

theorem statsStatuses_append (a b : List Event) :
    statsStatuses (a ++ b) = statsStatuses a ++ statsStatuses b := by
  unfold statsStatuses
  rw [List.filterMap_append]

theorem countEnd_append (a b : List Event) :
    countEnd (a ++ b) = countEnd a + countEnd b := by
  unfold countEnd
  rw [List.countP_append]

theorem transportHeadersOf_append_neutral (a b : List Event)
    (ha : neutralEvents a) : transportHeadersOf (a ++ b) = transportHeadersOf b := by
  unfold transportHeadersOf
  rw [List.filterMap_append, ha.2.2]
  rfl

theorem statsStatuses_append_neutral (a b : List Event)
    (ha : neutralEvents a) : statsStatuses (a ++ b) = statsStatuses b := by
  rw [statsStatuses_append, ha.1]
  rfl

theorem hasTransportCall_append_neutral (a b : List Event)
    (ha : neutralEvents a) : hasTransportCall (a ++ b) = hasTransportCall b := by
  unfold hasTransportCall
  rw [List.filterMap_append, ha.2.2]
  rfl

/-! ## Stage lemmas -/

theorem paramsOf_neutral (cfg : ApiServiceRestActionConfig) (args : Args)
    (h : Headers) : neutralEvents (paramsOf cfg args h).2 := by
  unfold paramsOf
  repeat' split
  all_goals exact ⟨rfl, rfl, rfl⟩

theorem paramsOf_no_transport (cfg : ApiServiceRestActionConfig) (args : Args)
    (h : Headers) : (paramsOf cfg args h).2.filterMap transportHeaderOfEv = [] :=
  (paramsOf_neutral cfg args h).2.2

theorem paramsOf_no_client (cfg : ApiServiceRestActionConfig) (args : Args)
    (h : Headers) : (paramsOf cfg args h).2.filterMap transportClientOfEv = [] := by
  unfold paramsOf
  repeat' split
  all_goals rfl

theorem paramsOf_stats (cfg : ApiServiceRestActionConfig) (args : Args)
    (h : Headers) : statsStatuses (paramsOf cfg args h).2 = [] :=
  (paramsOf_neutral cfg args h).1

theorem paramsOf_countEnd (cfg : ApiServiceRestActionConfig) (args : Args)
    (h : Headers) : countEnd (paramsOf cfg args h).2 = 0 :=
  (paramsOf_neutral cfg args h).2.1

theorem requestBodyOf_neutral (env : Env) (body : Option BodyValue) :
    neutralEvents (requestBodyOf env body).2 := by
  simp only [requestBodyOf]
  repeat' split
  all_goals exact ⟨rfl, rfl, rfl⟩

theorem requestBodyOf_no_transport (env : Env) (body : Option BodyValue) :
    (requestBodyOf env body).2.filterMap transportHeaderOfEv = [] :=
  (requestBodyOf_neutral env body).2.2

theorem requestBodyOf_no_client (env : Env) (body : Option BodyValue) :
    (requestBodyOf env body).2.filterMap transportClientOfEv = [] := by
  simp only [requestBodyOf]
  repeat' split
  all_goals rfl

theorem requestBodyOf_stats (env : Env) (body : Option BodyValue) :
    statsStatuses (requestBodyOf env body).2 = [] :=
  (requestBodyOf_neutral env body).1

theorem requestBodyOf_countEnd (env : Env) (body : Option BodyValue) :
    countEnd (requestBodyOf env body).2 = 0 :=
  (requestBodyOf_neutral env body).2.1

theorem transformedResponseData_neutral (cfg : ApiServiceRestActionConfig)
    (args : Args) (r : TransportResponse) :
    neutralEvents (transformedResponseData cfg args r).2 := by
  unfold transformedResponseData
  repeat' split
  all_goals exact ⟨rfl, rfl, rfl⟩

theorem normalizeRestError_neutral (cfg : ApiServiceRestActionConfig) (env : Env)
    (args : Args) (lang : String) (err : RestError) :
    neutralEvents (normalizeRestError cfg env args lang err).2 := by
  simp only [normalizeRestError]
  repeat' split
  all_goals exact ⟨rfl, rfl, rfl⟩

theorem successStatsEvent_status (opts : GatewayApiOptions) (env : Env)
    (d : String) : statsStatusOfEv (successStatsEvent opts env d) = some 200 := by
  unfold successStatsEvent
  cases hs : opts.sendStats <;> simp [statsStatusOfEv]

theorem successStatsEvent_not_end (opts : GatewayApiOptions) (env : Env)
    (d : String) : isEndEv (successStatsEvent opts env d) = false := by
  unfold successStatsEvent
  cases hs : opts.sendStats <;> simp [isEndEv]

theorem successStatsEvent_no_transport (opts : GatewayApiOptions) (env : Env)
    (d : String) : transportHeaderOfEv (successStatsEvent opts env d) = none := by
  unfold successStatsEvent
  cases hs : opts.sendStats <;> simp [transportHeaderOfEv]

theorem failureStatsEvent_status (opts : GatewayApiOptions) (env : Env)
    (s : Nat) (err : RestError) :
    statsStatusOfEv (failureStatsEvent opts env s err) = some s := by
  unfold failureStatsEvent
  cases hs : opts.sendStats <;> simp [statsStatusOfEv]

theorem failureStatsEvent_not_end (opts : GatewayApiOptions) (env : Env)
    (s : Nat) (err : RestError) :
    isEndEv (failureStatsEvent opts env s err) = false := by
  unfold failureStatsEvent
  cases hs : opts.sendStats <;> simp [isEndEv]

theorem failureStatsEvent_no_transport (opts : GatewayApiOptions) (env : Env)
    (s : Nat) (err : RestError) :
    transportHeaderOfEv (failureStatsEvent opts env s err) = none := by
  unfold failureStatsEvent
  cases hs : opts.sendStats <;> simp [transportHeaderOfEv]

theorem terminalTrace_shape (l : List Event) (s mid : Event) (n : Nat)
    (hl : neutralEvents l) (hs : statsStatusOfEv s = some n)
    (hsE : isEndEv s = false) (hsT : transportHeaderOfEv s = none)
    (hm : statsStatusOfEv mid = none) (hmE : isEndEv mid = false)
    (hmT : transportHeaderOfEv mid = none) :
    l ++ [s, mid, Event.ctxEnd] = (l ++ [s, mid]) ++ [Event.ctxEnd] ∧
    countEnd (l ++ [s, mid]) = 0 ∧ statsStatuses (l ++ [s, mid]) = [n] ∧
    (l ++ [s, mid]).filterMap transportHeaderOfEv = [] := by
  refine ⟨by simp, ?_, ?_, ?_⟩
  · rw [countEnd_append, hl.2.1]
    simp [countEnd, List.countP_cons, hsE, hmE]
  · rw [statsStatuses_append, hl.1]
    simp [statsStatuses, List.filterMap_cons, hs, hm]
  · rw [List.filterMap_append, hl.2.2]
    simp [List.filterMap_cons, hsT, hmT]

theorem successFlow_trace (cfg : ApiServiceRestActionConfig)
    (opts : GatewayApiOptions) (env : Env) (args : Args)
    (r : TransportResponse) (dbg : Headers) :
    ∃ pre, (successFlow cfg opts env args r dbg).2 = pre ++ [Event.ctxEnd] ∧
      countEnd pre = 0 ∧ statsStatuses pre = [200] ∧
      pre.filterMap transportHeaderOfEv = [] := by
  have h := terminalTrace_shape (transformedResponseData cfg args r).2
    (successStatsEvent opts env (transformedResponseData cfg args r).1)
    (Event.ctxLog ("Request completed")) 200
    (transformedResponseData_neutral cfg args r)
    (successStatsEvent_status _ _ _) (successStatsEvent_not_end _ _ _)
    (successStatsEvent_no_transport _ _ _) rfl rfl rfl
  exact ⟨_, h.1, h.2.1, h.2.2.1, h.2.2.2⟩

theorem failureFlow_trace (cfg : ApiServiceRestActionConfig)
    (opts : GatewayApiOptions) (env : Env) (args : Args) (lang : String)
    (rid : Option String) (err : RestError) (dbg : Headers) :
    ∃ pre, (failureFlow cfg opts env args lang rid err dbg).2 = pre ++ [Event.ctxEnd] ∧
      countEnd pre = 0 ∧
      statsStatuses pre =
        [resolvedRestStatus
          ((normalizeRestError cfg env args lang err).1.bind ParsedError.status)
          err.status] ∧
      pre.filterMap transportHeaderOfEv = [] := by
  have h := terminalTrace_shape (normalizeRestError cfg env args lang err).2
    (failureStatsEvent opts env
      (resolvedRestStatus
        ((normalizeRestError cfg env args lang err).1.bind ParsedError.status)
        err.status) err)
    (Event.ctxLogError ("Request failed")) _
    (normalizeRestError_neutral cfg env args lang err)
    (failureStatsEvent_status _ _ _ _) (failureStatsEvent_not_end _ _ _ _)
    (failureStatsEvent_no_transport _ _ _ _) rfl rfl rfl
  exact ⟨_, h.1, h.2.1, h.2.2.1, h.2.2.2⟩

theorem successFlow_no_transport (cfg : ApiServiceRestActionConfig)
    (opts : GatewayApiOptions) (env : Env) (args : Args)
    (r : TransportResponse) (dbg : Headers) :
    (successFlow cfg opts env args r dbg).2.filterMap transportHeaderOfEv = [] := by
  obtain ⟨pre, hpre, _, _, hpt⟩ := successFlow_trace cfg opts env args r dbg
  rw [hpre, List.filterMap_append, hpt]
  rfl

theorem failureFlow_no_transport (cfg : ApiServiceRestActionConfig)
    (opts : GatewayApiOptions) (env : Env) (args : Args) (lang : String)
    (rid : Option String) (err : RestError) (dbg : Headers) :
    (failureFlow cfg opts env args lang rid err dbg).2.filterMap transportHeaderOfEv = [] := by
  obtain ⟨pre, hpre, _, _, hpt⟩ := failureFlow_trace cfg opts env args lang rid err dbg
  rw [hpre, List.filterMap_append, hpt]
  rfl

theorem successFlow_stats (cfg : ApiServiceRestActionConfig)
    (opts : GatewayApiOptions) (env : Env) (args : Args)
    (r : TransportResponse) (dbg : Headers) :
    statsStatuses (successFlow cfg opts env args r dbg).2 = [200] := by
  obtain ⟨pre, hpre, _, hst, _⟩ := successFlow_trace cfg opts env args r dbg
  rw [hpre, statsStatuses_append, hst]
  rfl

theorem failureFlow_stats (cfg : ApiServiceRestActionConfig)
    (opts : GatewayApiOptions) (env : Env) (args : Args) (lang : String)
    (rid : Option String) (err : RestError) (dbg : Headers) :
    statsStatuses (failureFlow cfg opts env args lang rid err dbg).2 =
      [resolvedRestStatus
        ((normalizeRestError cfg env args lang err).1.bind ParsedError.status)
        err.status] := by
  obtain ⟨pre, hpre, _, hst, _⟩ := failureFlow_trace cfg opts env args lang rid err dbg
  rw [hpre, statsStatuses_append, hst]
  rfl

theorem transformedResponseData_no_client (cfg : ApiServiceRestActionConfig)
    (args : Args) (r : TransportResponse) :
    (transformedResponseData cfg args r).2.filterMap transportClientOfEv = [] := by
  unfold transformedResponseData
  repeat' split
  all_goals rfl

theorem normalizeRestError_no_client (cfg : ApiServiceRestActionConfig)
    (env : Env) (args : Args) (lang : String) (err : RestError) :
    (normalizeRestError cfg env args lang err).2.filterMap transportClientOfEv = [] := by
  simp only [normalizeRestError]
  repeat' split
  all_goals rfl

theorem successStatsEvent_no_client (opts : GatewayApiOptions) (env : Env)
    (d : String) : transportClientOfEv (successStatsEvent opts env d) = none := by
  unfold successStatsEvent
  cases hs : opts.sendStats <;> simp [transportClientOfEv]

theorem failureStatsEvent_no_client (opts : GatewayApiOptions) (env : Env)
    (s : Nat) (err : RestError) :
    transportClientOfEv (failureStatsEvent opts env s err) = none := by
  unfold failureStatsEvent
  cases hs : opts.sendStats <;> simp [transportClientOfEv]

theorem successFlow_no_client (cfg : ApiServiceRestActionConfig)
    (opts : GatewayApiOptions) (env : Env) (args : Args)
    (r : TransportResponse) (dbg : Headers) :
    (successFlow cfg opts env args r dbg).2.filterMap transportClientOfEv = [] := by
  show List.filterMap transportClientOfEv
    ((transformedResponseData cfg args r).2 ++
     [successStatsEvent opts env (transformedResponseData cfg args r).1,
      Event.ctxLog ("Request completed"), Event.ctxEnd]) = []
  rw [List.filterMap_append, transformedResponseData_no_client,
    List.filterMap_cons, successStatsEvent_no_client]
  rfl

theorem failureFlow_no_client (cfg : ApiServiceRestActionConfig)
    (opts : GatewayApiOptions) (env : Env) (args : Args) (lang : String)
    (rid : Option String) (err : RestError) (dbg : Headers) :
    (failureFlow cfg opts env args lang rid err dbg).2.filterMap transportClientOfEv = [] := by
  show List.filterMap transportClientOfEv
    ((normalizeRestError cfg env args lang err).2 ++
     [failureStatsEvent opts env
        (resolvedRestStatus
          ((normalizeRestError cfg env args lang err).1.bind ParsedError.status)
          err.status) err,
      Event.ctxLogError ("Request failed"), Event.ctxEnd]) = []
  rw [List.filterMap_append, normalizeRestError_no_client,
    List.filterMap_cons, failureStatsEvent_no_client]
  rfl

/-! ## Dispatch-level path lemmas -/

theorem glue_trace (pre0 : List Event) (r : DispatchResult × List Event) (n : Nat)
    (h0e : countEnd pre0 = 0) (h0s : statsStatuses pre0 = [])
    (h0t : pre0.filterMap transportHeaderOfEv ≠ [])
    (hfl : ∃ fpre, r.2 = fpre ++ [Event.ctxEnd] ∧ countEnd fpre = 0 ∧
      statsStatuses fpre = [n] ∧ fpre.filterMap transportHeaderOfEv = []) :
    ∃ pre, (prependEvents pre0 r).2 = pre ++ [Event.ctxEnd] ∧ countEnd pre = 0 ∧
      (statsStatuses (prependEvents pre0 r).2).length = 1 ∧
      hasTransportCall (prependEvents pre0 r).2 = true := by
  obtain ⟨fpre, h1, h2, h3, h4⟩ := hfl
  refine ⟨pre0 ++ fpre, ?_, ?_, ?_, ?_⟩
  · show pre0 ++ r.2 = (pre0 ++ fpre) ++ [Event.ctxEnd]
    rw [h1, List.append_assoc]
  · rw [countEnd_append, h0e, h2]
  · show (statsStatuses (pre0 ++ r.2)).length = 1
    rw [statsStatuses_append, h0s, h1, statsStatuses_append, h3]
    rfl
  · show hasTransportCall (pre0 ++ r.2) = true
    unfold hasTransportCall
    rw [List.filterMap_append]
    cases hx : pre0.filterMap transportHeaderOfEv with
    | nil => exact absurd hx h0t
    | cons a t => rfl

theorem actionWithEndpoint_trace (A : RestActionClosure) (c : ApiActionConfig)
    (env : Env) (lang sn : String) (ed : EndpointData) :
    ∃ pre, (actionWithEndpoint A c env lang sn ed).2 = pre ++ [Event.ctxEnd] ∧
      countEnd pre = 0 ∧
      (statsStatuses (actionWithEndpoint A c env lang sn ed).2).length = 1 ∧
      hasTransportCall (actionWithEndpoint A c env lang sn ed).2 = true := by
  simp only [actionWithEndpoint]
  cases ht : env.transport with
  | ok r =>
    refine glue_trace _ _ 200 ?_ ?_ ?_ (successFlow_trace _ _ _ _ _ _)
    · rw [countEnd_append, countEnd_append, countEnd_append,
        paramsOf_countEnd, requestBodyOf_countEnd]
      rfl
    · rw [statsStatuses_append, statsStatuses_append, statsStatuses_append,
        paramsOf_stats, requestBodyOf_stats]
      rfl
    · rw [List.filterMap_append, List.filterMap_append, List.filterMap_append,
        paramsOf_no_transport, requestBodyOf_no_transport]
      simp [transportHeaderOfEv]
  | error e =>
    refine glue_trace _ _
      (resolvedRestStatus
        ((normalizeRestError A.config env c.args lang e).1.bind ParsedError.status)
        e.status) ?_ ?_ ?_ (failureFlow_trace _ _ _ _ _ _ _ _)
    · rw [countEnd_append, countEnd_append, countEnd_append,
        paramsOf_countEnd, requestBodyOf_countEnd]
      rfl
    · rw [statsStatuses_append, statsStatuses_append, statsStatuses_append,
        paramsOf_stats, requestBodyOf_stats]
      rfl
    · rw [List.filterMap_append, List.filterMap_append, List.filterMap_append,
        paramsOf_no_transport, requestBodyOf_no_transport]
      simp [transportHeaderOfEv]

theorem transportHeadersOf_glue (pr2 rb2 flow2 : List Event) (m1 : String)
    (cl : AxiosClient) (th : Headers)
    (h1 : pr2.filterMap transportHeaderOfEv = [])
    (h2 : rb2.filterMap transportHeaderOfEv = [])
    (h3 : flow2.filterMap transportHeaderOfEv = []) :
    transportHeadersOf (([Event.headerAssemblyRun] ++ pr2 ++ rb2 ++
      [Event.ctxLog m1, Event.transportRequest cl th]) ++ flow2) = some th := by
  unfold transportHeadersOf
  rw [List.filterMap_append, List.filterMap_append, List.filterMap_append,
    List.filterMap_append, h1, h2, h3]
  rfl

theorem transportClientsOf_glue (pr2 rb2 flow2 : List Event) (m1 : String)
    (cl : AxiosClient) (th : Headers)
    (h1 : pr2.filterMap transportClientOfEv = [])
    (h2 : rb2.filterMap transportClientOfEv = [])
    (h3 : flow2.filterMap transportClientOfEv = []) :
    transportClientsOf (([Event.headerAssemblyRun] ++ pr2 ++ rb2 ++
      [Event.ctxLog m1, Event.transportRequest cl th]) ++ flow2) = [cl] := by
  unfold transportClientsOf
  rw [List.filterMap_append, List.filterMap_append, List.filterMap_append,
    List.filterMap_append, h1, h2, h3]
  rfl

theorem actionWithEndpoint_headers (A : RestActionClosure) (c : ApiActionConfig)
    (env : Env) (lang sn : String) (ed : EndpointData) :
    transportHeadersOf (actionWithEndpoint A c env lang sn ed).2 =
      some (assign env.ctxMetadata
        (((paramsOf A.config c.args (composedOf A c env lang sn ed)).1.bind
            ParamsOutput.headers).getD (composedOf A c env lang sn ed))) := by
  simp only [actionWithEndpoint, prependEvents]
  cases ht : env.transport with
  | ok r =>
    exact transportHeadersOf_glue _ _ _ _ _ _
      (paramsOf_no_transport _ _ _) (requestBodyOf_no_transport _ _)
      (successFlow_no_transport _ _ _ _ _ _)
  | error e =>
    exact transportHeadersOf_glue _ _ _ _ _ _
      (paramsOf_no_transport _ _ _) (requestBodyOf_no_transport _ _)
      (failureFlow_no_transport _ _ _ _ _ _ _ _)

theorem actionWithEndpoint_client (A : RestActionClosure) (c : ApiActionConfig)
    (env : Env) (lang sn : String) (ed : EndpointData) :
    transportClientsOf (actionWithEndpoint A c env lang sn ed).2 = [clientOf A c ed] := by
  simp only [actionWithEndpoint, prependEvents]
  cases ht : env.transport with
  | ok r =>
    exact transportClientsOf_glue _ _ _ _ _ _
      (paramsOf_no_client _ _ _) (requestBodyOf_no_client _ _)
      (successFlow_no_client _ _ _ _ _ _)
  | error e =>
    exact transportClientsOf_glue _ _ _ _ _ _
      (paramsOf_no_client _ _ _) (requestBodyOf_no_client _ _)
      (failureFlow_no_client _ _ _ _ _ _ _ _)

theorem actionWithEndpoint_result_ok (A : RestActionClosure) (c : ApiActionConfig)
    (env : Env) (lang sn : String) (ed : EndpointData) (r : TransportResponse)
    (ht : env.transport = Except.ok r) :
    ∃ dh, (actionWithEndpoint A c env lang sn ed).1 =
      DispatchResult.resolved (transformedResponseData A.config c.args r).1 dh := by
  simp only [actionWithEndpoint]
  rw [ht]
  exact ⟨_, rfl⟩

theorem actionWithEndpoint_result_error (A : RestActionClosure) (c : ApiActionConfig)
    (env : Env) (lang sn : String) (ed : EndpointData) (err : RestError)
    (ht : env.transport = Except.error err) :
    ∃ dh, (actionWithEndpoint A c env lang sn ed).1 =
      DispatchResult.rejected
        { error := failureGatewayError
            (normalizeRestError A.config env c.args lang err).1 c.requestId
        , debugHeaders := some dh } := by
  simp only [actionWithEndpoint]
  rw [ht]
  exact ⟨_, rfl⟩

theorem statsStatuses_glue (pr2 rb2 flow2 : List Event) (m1 : String)
    (cl : AxiosClient) (th : Headers) (ns : List Nat)
    (h1 : statsStatuses pr2 = []) (h2 : statsStatuses rb2 = [])
    (h3 : statsStatuses flow2 = ns) :
    statsStatuses (([Event.headerAssemblyRun] ++ pr2 ++ rb2 ++
      [Event.ctxLog m1, Event.transportRequest cl th]) ++ flow2) = ns := by
  unfold statsStatuses at h1 h2 h3 ⊢
  rw [List.filterMap_append, List.filterMap_append, List.filterMap_append,
    List.filterMap_append, h1, h2, h3]
  rfl

theorem actionWithEndpoint_stats_ok (A : RestActionClosure) (c : ApiActionConfig)
    (env : Env) (lang sn : String) (ed : EndpointData) (r : TransportResponse)
    (ht : env.transport = Except.ok r) :
    statsStatuses (actionWithEndpoint A c env lang sn ed).2 = [200] := by
  simp only [actionWithEndpoint, prependEvents]
  rw [ht]
  exact statsStatuses_glue _ _ _ _ _ _ _
    (paramsOf_stats _ _ _) (requestBodyOf_stats _ _)
    (successFlow_stats _ _ _ _ _ _)

theorem actionWithEndpoint_stats_error (A : RestActionClosure) (c : ApiActionConfig)
    (env : Env) (lang sn : String) (ed : EndpointData) (err : RestError)
    (ht : env.transport = Except.error err) :
    statsStatuses (actionWithEndpoint A c env lang sn ed).2 =
      [resolvedRestStatus
        ((normalizeRestError A.config env c.args lang err).1.bind ParsedError.status)
        err.status] := by
  simp only [actionWithEndpoint, prependEvents]
  rw [ht]
  exact statsStatuses_glue _ _ _ _ _ _ _
    (paramsOf_stats _ _ _) (requestBodyOf_stats _ _)
    (failureFlow_stats _ _ _ _ _ _ _ _)

theorem action_validation_failure (A : RestActionClosure) (c : ApiActionConfig)
    (env : Env) (schema : Schema) (inv : InvalidParams)
    (hs : (A.config.validationSchema <|> A.options.validationSchema) = some schema)
    (hinv : env.validateArgs c.args schema = some inv) :
    action A c env =
      (DispatchResult.rejected
        { error :=
          { status := some 400
          , message := some ("Validation failed")
          , code := some ("INVALID_PARAMS")
          , details := some (ErrorDetails.invalidParams ("Invalid params") inv)
          , requestId := none }
        , debugHeaders := some [] },
       [Event.ctxCreate ("Gateway " ++ jsOrStr A.options.serviceName A.serviceKey ++
          " " ++ A.actionName ++ " [rest]"),
        Event.ctxLog ("Initiating request"), Event.validationRun,
        Event.ctxLog ("Invalid params"), Event.ctxEnd]) := by
  simp only [action]
  simp only [hs]
  simp only [hinv]
  rfl

theorem action_passes (A : RestActionClosure) (c : ApiActionConfig) (env : Env)
    (hv : validationPasses A c env) :
    ∃ ev0, action A c env =
      prependEvents ev0
        (actionAfterValidation A c env
          (jsOrStr (hget c.headers env.consts.defaultLangHeader) env.consts.defaultLang)
          (jsOrStr A.options.serviceName A.serviceKey)) ∧
      neutralEvents ev0 := by
  unfold validationPasses at hv
  simp only [action]
  cases hs : (A.config.validationSchema <|> A.options.validationSchema) with
  | none => exact ⟨_, rfl, ⟨rfl, rfl, rfl⟩⟩
  | some schema =>
    rw [hs] at hv
    have hv2 : env.validateArgs c.args schema = none := hv
    simp only [hv2]
    exact ⟨_, rfl, ⟨rfl, rfl, rfl⟩⟩

theorem afterValidation_endpoint_failure (A : RestActionClosure)
    (c : ApiActionConfig) (env : Env) (lang sn : String)
    (he : resolveEndpointData A.endpoints A.config.endpoint c.args = none) :
    actionAfterValidation A c env lang sn =
      (DispatchResult.rejected
        { error :=
          { status := some 400
          , code := some ("ENDPOINT_NOT_FOUND")
          , message := some ("Gateway config error. Endpoint has been not found in service \"" ++ A.serviceKey ++ "\"") }
        , debugHeaders := none },
       [Event.endpointResolutionRun,
        Event.ctxLog ("Gateway config error. Endpoint has been not found in service \"" ++ A.serviceKey ++ "\""),
        Event.ctxEnd]) := by
  simp only [actionAfterValidation]
  rw [he]

theorem afterValidation_endpoint_ok (A : RestActionClosure) (c : ApiActionConfig)
    (env : Env) (lang sn : String) (ed : EndpointData)
    (he : resolveEndpointData A.endpoints A.config.endpoint c.args = some ed) :
    actionAfterValidation A c env lang sn =
      prependEvents [Event.endpointResolutionRun]
        (actionWithEndpoint A c env lang sn ed) := by
  simp only [actionAfterValidation]
  rw [he]

/-! ## Concrete fixtures for witnesses and counterexamples -/

/-- Baseline constants of the `../constants` module. -/
def consts0 : Consts := {}

/-- Baseline oracle environment: validation passes, transport succeeds. -/
def env0 : Env :=
  { validateArgs := fun _ _ => none
  , uuid := "uuid-1"
  , urlHost := fun _ => some ("svc:8080")
  , encodePathParams := fun a => a
  , getPathArgsProxy := fun a _ => a
  , encodeURIComponent := fun s => s
  , qsStringify := fun _ => ""
  , ctxMetadata := []
  , transport := Except.ok { data := "payload" }
  , parseRestError := fun e _ =>
      Except.ok { status := some (e.status.getD 500), code := some ("REST_REQUEST_FAILED") }
  , responseSize := fun _ => 0
  , consts := consts0 }

/-- Baseline service options: no custom sink, a no-op auth provider. -/
def options0 : GatewayApiOptions := { getAuthHeaders := fun _ => AuthReturn.value none }

/-- One-entry endpoint table. -/
def endpoints0 : EndpointsConfig := [("main", EndpointData.plain ("http://svc"))]

/-- Baseline action configuration resolving the `main` endpoint. -/
def baseConfig : ApiServiceRestActionConfig :=
  { method := "get", path := PathSpec.fixed ("/items")
  , endpoint := EndpointSelector.name ("main") }

/-- Baseline closure built by `createRestAction`. -/
def baseClosure : RestActionClosure :=
  createRestAction (some endpoints0) baseConfig "svc" "list" options0

/-- Baseline call invocation. -/
def baseCall : ApiActionConfig := { args := "args1" }

/-! ## Claims -/

/-- C7: for every call whose endpoint cannot be resolved (and whose
validation passed), the dispatch rejects with status 400 and code
ENDPOINT_NOT_FOUND, the tracing span is closed exactly once, and no
transport call occurs. -/
theorem c7_endpoint_not_found (A : RestActionClosure) (c : ApiActionConfig)
    (env : Env) (hv : validationPasses A c env)
    (he : resolveEndpointData A.endpoints A.config.endpoint c.args = none) :
    (action A c env).1 =
      DispatchResult.rejected
        { error :=
          { status := some 400
          , code := some ("ENDPOINT_NOT_FOUND")
          , message := some ("Gateway config error. Endpoint has been not found in service \"" ++ A.serviceKey ++ "\"")
          , details := none
          , requestId := none }
        , debugHeaders := none } ∧
    countEnd (action A c env).2 = 1 ∧
    hasTransportCall (action A c env).2 = false := by
  obtain ⟨ev0, heq, hneu⟩ := action_passes A c env hv
  rw [heq, afterValidation_endpoint_failure A c env _ _ he]
  refine ⟨rfl, ?_, ?_⟩
  · show countEnd (ev0 ++ [Event.endpointResolutionRun,
      Event.ctxLog ("Gateway config error. Endpoint has been not found in service \"" ++ A.serviceKey ++ "\""),
      Event.ctxEnd]) = 1
    rw [countEnd_append, hneu.2.1]
    rfl
  · show hasTransportCall (ev0 ++ [Event.endpointResolutionRun,
      Event.ctxLog ("Gateway config error. Endpoint has been not found in service \"" ++ A.serviceKey ++ "\""),
      Event.ctxEnd]) = false
    rw [hasTransportCall_append_neutral _ _ hneu]
    rfl

/-- Action configuration naming an endpoint absent from the table. -/
def config7 : ApiServiceRestActionConfig :=
  { method := "get", path := PathSpec.fixed ("/items")
  , endpoint := EndpointSelector.name ("missing") }

/-- Closure whose endpoint never resolves. -/
def closure7 : RestActionClosure :=
  createRestAction (some endpoints0) config7 "svc" "list" options0

/-- Witness for C7 at a concrete unresolvable endpoint. -/
theorem c7_witness :
    (action closure7 baseCall env0).1 =
      DispatchResult.rejected
        { error :=
          { status := some 400
          , code := some ("ENDPOINT_NOT_FOUND")
          , message := some ("Gateway config error. Endpoint has been not found in service \"svc\"")
          , details := none
          , requestId := none }
        , debugHeaders := none } ∧
    countEnd (action closure7 baseCall env0).2 = 1 ∧
    hasTransportCall (action closure7 baseCall env0).2 = false :=
  c7_endpoint_not_found closure7 baseCall env0
    (by unfold validationPasses; exact trivial) (by rfl)

/-- C8: for every call where the schema validator reports invalid fields,
the dispatch rejects with status 400, code INVALID_PARAMS and details
listing the invalid fields; the tracing span is closed exactly once; and
neither endpoint resolution, nor header assembly, nor any transport call
happens. -/
theorem c8_validation_failure (A : RestActionClosure) (c : ApiActionConfig)
    (env : Env) (schema : Schema) (inv : InvalidParams)
    (hs : (A.config.validationSchema <|> A.options.validationSchema) = some schema)
    (hinv : env.validateArgs c.args schema = some inv) :
    (action A c env).1 =
      DispatchResult.rejected
        { error :=
          { status := some 400
          , message := some ("Validation failed")
          , code := some ("INVALID_PARAMS")
          , details := some (ErrorDetails.invalidParams ("Invalid params") inv)
          , requestId := none }
        , debugHeaders := some [] } ∧
    countEnd (action A c env).2 = 1 ∧
    hasTransportCall (action A c env).2 = false ∧
    (action A c env).2.any isEndpointResolutionEv = false ∧
    (action A c env).2.any isHeaderAssemblyEv = false := by
  rw [action_validation_failure A c env schema inv hs hinv]
  exact ⟨rfl, rfl, rfl, rfl, rfl⟩

/-- Action configuration with a validation schema. -/
def config8 : ApiServiceRestActionConfig :=
  { method := "get", path := PathSpec.fixed ("/items")
  , endpoint := EndpointSelector.name ("main")
  , validationSchema := some ("schema1") }

/-- Closure with a validation schema. -/
def closure8 : RestActionClosure :=
  createRestAction (some endpoints0) config8 "svc" "list" options0

/-- Environment whose validator reports an invalid field. -/
def env8 : Env := { env0 with validateArgs := fun _ _ => some ["badField"] }

/-- Witness for C8 at a concrete invalid call. -/
theorem c8_witness :
    (action closure8 baseCall env8).1 =
      DispatchResult.rejected
        { error :=
          { status := some 400
          , message := some ("Validation failed")
          , code := some ("INVALID_PARAMS")
          , details := some (ErrorDetails.invalidParams ("Invalid params") ["badField"])
          , requestId := none }
        , debugHeaders := some [] } ∧
    countEnd (action closure8 baseCall env8).2 = 1 ∧
    hasTransportCall (action closure8 baseCall env8).2 = false ∧
    (action closure8 baseCall env8).2.any isEndpointResolutionEv = false ∧
    (action closure8 baseCall env8).2.any isHeaderAssemblyEv = false :=
  c8_validation_failure closure8 baseCall env8 ("schema1") (["badField"])
    (by rfl) (by rfl)

/-- C9: for every dispatch whose transport call succeeds and whose
response-transform hook throws, the dispatch still resolves successfully
and the resolved responseData is the original untransformed payload. -/
theorem c9_transform_error_keeps_success (A : RestActionClosure)
    (c : ApiActionConfig) (env : Env) (ed : EndpointData)
    (r : TransportResponse) (f : String → Args → Headers → Except Unit String)
    (hv : validationPasses A c env)
    (he : resolveEndpointData A.endpoints A.config.endpoint c.args = some ed)
    (ht : env.transport = Except.ok r)
    (hf : A.config.transformResponseData = some f)
    (hthrow : f r.data c.args r.headers = Except.error ()) :
    resolvedDataOf (action A c env).1 = some r.data := by
  obtain ⟨ev0, heq, hneu⟩ := action_passes A c env hv
  rw [heq, afterValidation_endpoint_ok A c env _ _ ed he]
  simp only [prependEvents]
  obtain ⟨dh, hres⟩ := actionWithEndpoint_result_ok A c env
    (jsOrStr (hget c.headers env.consts.defaultLangHeader) env.consts.defaultLang)
    (jsOrStr A.options.serviceName A.serviceKey) ed r ht
  rw [hres]
  simp only [resolvedDataOf, transformedResponseData, hf, hthrow]

/-- Action configuration whose response-transform hook always throws. -/
def config9 : ApiServiceRestActionConfig :=
  { method := "get", path := PathSpec.fixed ("/items")
  , endpoint := EndpointSelector.name ("main")
  , transformResponseData := some (fun _ _ _ => Except.error ()) }

/-- Closure with a throwing response-transform hook. -/
def closure9 : RestActionClosure :=
  createRestAction (some endpoints0) config9 "svc" "list" options0

/-- Witness for C9 at a concrete throwing hook. -/
theorem c9_witness :
    resolvedDataOf (action closure9 baseCall env0).1 = some ("payload") :=
  c9_transform_error_keeps_success closure9 baseCall env0
    (EndpointData.plain ("http://svc")) { data := "payload" }
    (fun _ _ _ => Except.error ())
    (by unfold validationPasses; exact trivial) (by rfl) (by rfl) (by rfl) (by rfl)

/-- C10: for every dispatch whose transport call resolves without
throwing, the emitted stats record reports status 200 unconditionally,
regardless of the actual HTTP status of the transport response. -/
theorem c10_success_stats_status_200 (A : RestActionClosure)
    (c : ApiActionConfig) (env : Env) (ed : EndpointData) (r : TransportResponse)
    (hv : validationPasses A c env)
    (he : resolveEndpointData A.endpoints A.config.endpoint c.args = some ed)
    (ht : env.transport = Except.ok r) :
    statsStatuses (action A c env).2 = [200] := by
  obtain ⟨ev0, heq, hneu⟩ := action_passes A c env hv
  rw [heq, afterValidation_endpoint_ok A c env _ _ ed he]
  simp only [prependEvents]
  rw [statsStatuses_append_neutral _ _ hneu,
      statsStatuses_append_neutral [Event.endpointResolutionRun] _ ⟨rfl, rfl, rfl⟩,
      actionWithEndpoint_stats_ok A c env _ _ ed r ht]

/-- Environment whose transport resolves with HTTP status 204. -/
def env10 : Env :=
  { env0 with transport := Except.ok { data := "no-content", status := 204 } }

/-- Witness for C10: a 204 transport response is reported as 200. -/
theorem c10_witness :
    statsStatuses (action baseClosure baseCall env10).2 = [200] :=
  c10_success_stats_status_200 baseClosure baseCall env10
    (EndpointData.plain ("http://svc")) { data := "no-content", status := 204 }
    (by unfold validationPasses; exact trivial) (by rfl) (by rfl)

theorem terminal_no_stats (ev0 : List Event) (m1 : String)
    (hneu : neutralEvents ev0) :
    ∃ pre, ev0 ++ [Event.endpointResolutionRun, Event.ctxLog m1, Event.ctxEnd] =
        pre ++ [Event.ctxEnd] ∧ countEnd pre = 0 ∧
      (statsStatuses (ev0 ++ [Event.endpointResolutionRun, Event.ctxLog m1, Event.ctxEnd])).length =
        (if hasTransportCall (ev0 ++ [Event.endpointResolutionRun, Event.ctxLog m1, Event.ctxEnd])
         then 1 else 0) := by
  refine ⟨ev0 ++ [Event.endpointResolutionRun, Event.ctxLog m1], ?_, ?_, ?_⟩
  · rw [List.append_assoc]
    rfl
  · rw [countEnd_append, hneu.2.1]
    rfl
  · rw [statsStatuses_append_neutral _ _ hneu, hasTransportCall_append_neutral _ _ hneu]
    rfl

theorem terminal_with_stats (ev0 : List Event) (hneu : neutralEvents ev0)
    (aw : List Event)
    (h : ∃ p, aw = p ++ [Event.ctxEnd] ∧ countEnd p = 0 ∧
      (statsStatuses aw).length = 1 ∧ hasTransportCall aw = true) :
    ∃ pre, ev0 ++ ([Event.endpointResolutionRun] ++ aw) = pre ++ [Event.ctxEnd] ∧
      countEnd pre = 0 ∧
      (statsStatuses (ev0 ++ ([Event.endpointResolutionRun] ++ aw))).length =
        (if hasTransportCall (ev0 ++ ([Event.endpointResolutionRun] ++ aw))
         then 1 else 0) := by
  obtain ⟨p, h1, h2, h3, h4⟩ := h
  refine ⟨ev0 ++ ([Event.endpointResolutionRun] ++ p), ?_, ?_, ?_⟩
  · rw [h1]
    simp [List.append_assoc]
  · rw [countEnd_append, hneu.2.1, countEnd_append, h2]
    rfl
  · rw [statsStatuses_append_neutral _ _ hneu,
        statsStatuses_append_neutral [Event.endpointResolutionRun] _ ⟨rfl, rfl, rfl⟩,
        hasTransportCall_append_neutral _ _ hneu,
        hasTransportCall_append_neutral [Event.endpointResolutionRun] _ ⟨rfl, rfl, rfl⟩,
        h3, h4]
    rfl

/-- C1 (amended): on every dispatch the tracing span is closed exactly
once, as the final event — hence after any telemetry emission; exactly one
stats emission occurs when the dispatch reaches the transport call, and
none occurs on validation or endpoint-resolution failures (where no
transport call happens). -/
theorem c1_amended (A : RestActionClosure) (c : ApiActionConfig) (env : Env) :
    ∃ pre, (action A c env).2 = pre ++ [Event.ctxEnd] ∧ countEnd pre = 0 ∧
      (statsStatuses (action A c env).2).length =
        (if hasTransportCall (action A c env).2 then 1 else 0) := by
  by_cases hfail : ∃ schema inv,
      (A.config.validationSchema <|> A.options.validationSchema) = some schema ∧
      env.validateArgs c.args schema = some inv
  · obtain ⟨schema, inv, hs, hval⟩ := hfail
    rw [action_validation_failure A c env schema inv hs hval]
    refine ⟨[Event.ctxCreate ("Gateway " ++ jsOrStr A.options.serviceName A.serviceKey ++
        " " ++ A.actionName ++ " [rest]"),
      Event.ctxLog ("Initiating request"), Event.validationRun,
      Event.ctxLog ("Invalid params")], rfl, rfl, rfl⟩
  · have hv : validationPasses A c env := by
      unfold validationPasses
      cases hs : (A.config.validationSchema <|> A.options.validationSchema) with
      | none => exact trivial
      | some schema =>
        cases hval : env.validateArgs c.args schema with
        | none => exact hval
        | some inv => exact absurd ⟨schema, inv, hs, hval⟩ hfail
    obtain ⟨ev0, heq, hneu⟩ := action_passes A c env hv
    cases hr : resolveEndpointData A.endpoints A.config.endpoint c.args with
    | none =>
      rw [heq, afterValidation_endpoint_failure A c env _ _ hr]
      exact terminal_no_stats ev0 _ hneu
    | some ed =>
      rw [heq, afterValidation_endpoint_ok A c env _ _ ed hr]
      exact terminal_with_stats ev0 hneu _ (actionWithEndpoint_trace A c env _ _ ed)

/-- C1 counterexample: a dispatch that fails validation emits zero stats
(the claim demands exactly one stats emission on every dispatch, the
validation-failure path included); its span is still closed once. -/
theorem c1_counterexample :
    statsStatuses (action closure8 baseCall env8).2 = [] ∧
    countEnd (action closure8 baseCall env8).2 = 1 :=
  ⟨rfl, rfl⟩

/-- Action configuration with an action-level timeout but no endpoint
override anywhere. -/
def config3 : ApiServiceRestActionConfig :=
  { method := "get", path := PathSpec.fixed ("/items")
  , endpoint := EndpointSelector.name ("main"), timeout := some 5000 }

/-- Closure for the transport-selection claim. -/
def closure3 : RestActionClosure :=
  createRestAction (some endpoints0) config3 "svc" "list" options0

/-- C3 (code bug): a call with no per-call timeout against a plain
endpoint (no transport overrides) still performs its HTTP call on a
freshly constructed per-call client, not on the shared default instance:
`endpointAxiosConfig` always falls back to the (truthy) empty object, so
the override branch is taken on every dispatch and the default client
built at action-construction time is never used. -/
theorem c3_code_bug_fresh_client :
    baseCall.timeout = none ∧
    resolveEndpointData closure3.endpoints closure3.config.endpoint baseCall.args =
      some (EndpointData.plain ("http://svc")) ∧
    closure3.defaultAxiosClient = getAxiosClient (some 5000) none none true ∧
    transportClientsOf (action closure3 baseCall env0).2 =
      [getAxiosClient (some 5000) none (some {}) false] :=
  ⟨rfl, rfl, rfl, rfl⟩

/-- Action configuration for the header-precedence scenario: the name `x`
is whitelisted in the static proxy list, and the auth provider is the
given one (action-level). -/
def c2Config (x : String) (auth : Option (GetAuthHeadersParams → AuthReturn)) :
    ApiServiceRestActionConfig :=
  { method := "get", path := PathSpec.fixed ("/p")
  , endpoint := EndpointSelector.name ("main")
  , proxyHeaders := some (ProxyHeadersSpec.list [x])
  , getAuthHeaders := auth }

/-- Service options for the header-precedence scenario: the service-level
proxy-header function sets `x` to `b`. -/
def c2Options (x b : String) : GatewayApiOptions :=
  { proxyHeaders := some (ProxyHeadersSpec.fn (fun _ _ => [(x, some b)]))
  , getAuthHeaders := fun _ => AuthReturn.value none }

/-- Closure for the header-precedence scenario. -/
def c2Closure (x b : String) (auth : Option (GetAuthHeadersParams → AuthReturn)) :
    RestActionClosure :=
  createRestAction (some endpoints0) (c2Config x auth) "svc" "act" (c2Options x b)

theorem c2_preOmit_auth (x b cv : String) (env : Env) (rh : Headers)
    (rid : Option String) (host : Option String) (lang sn : String)
    (aa : Option AuthArgs) :
    hget (composePreOmit env (c2Options x b)
      (c2Config x (some (fun _ => AuthReturn.value (some [(x, some cv)]))))
      rh rid host lang sn aa) x = some cv := by
  simp only [composePreOmit, c2Config, c2Options, mergeAuthHeaders, Option.getD]
  exact hget_hset_self _ _ _

theorem hget_composePreOmit_of (env : Env) (opts : GatewayApiOptions)
    (cfg : ApiServiceRestActionConfig) (rh : Headers) (rid : Option String)
    (host : Option String) (lang sn : String) (aa : Option AuthArgs)
    (x v : String)
    (hx1 : x ≠ "x-request-id") (hidem : cfg.idempotency = false)
    (hbase : hget (passthroughCopy
      (env.consts.defaultProxyHeaders ++ proxyListOf opts.proxyHeaders ++
        proxyListOf cfg.proxyHeaders) rh
      (applyProxyFn cfg.proxyHeaders rh
        (applyProxyFn opts.proxyHeaders rh
          (seedHeaders host lang env.consts.version)))) x = some v)
    (hauth : ∀ t : Headers, hget t x = some v →
      hget (mergeAuthHeaders t ((cfg.getAuthHeaders.getD opts.getAuthHeaders)
        { actionType := "rest", serviceName := sn
        , requestHeaders := rh, authArgs := aa })) x = some v) :
    hget (composePreOmit env opts cfg rh rid host lang sn aa) x = some v := by
  simp only [composePreOmit]
  apply hauth
  rw [hidem, if_neg Bool.false_ne_true]
  by_cases hrid : truthyStr rid = true
  · rw [if_pos hrid, hget_hset_ne _ _ _ _ (Ne.symm hx1)]
    exact hbase
  · rw [if_neg hrid]
    exact hbase

theorem c2_preOmit_noauth (x b : String) (env : Env) (rh : Headers)
    (rid : Option String) (host : Option String) (lang sn : String)
    (aa : Option AuthArgs) (hx : x ≠ "x-request-id") :
    hget (composePreOmit env (c2Options x b) (c2Config x none)
      rh rid host lang sn aa) x = some b := by
  apply hget_composePreOmit_of
  · exact hx
  · rfl
  · apply passthroughCopy_preserves
    have h1 : hget (applyProxyFn (c2Options x b).proxyHeaders rh
        (seedHeaders host lang env.consts.version)) x = some b := by
      simp only [c2Options, applyProxyFn]
      exact hget_hset_self _ _ _
    show hget (applyProxyFn (c2Config x none).proxyHeaders rh
      (applyProxyFn (c2Options x b).proxyHeaders rh
        (seedHeaders host lang env.consts.version))) x = some b
    simp only [c2Config, applyProxyFn]
    exact h1
  · intro t h
    simp only [c2Config, c2Options, mergeAuthHeaders, Option.getD]
    exact h

theorem c2_transport_headers (x b : String)
    (auth : Option (GetAuthHeadersParams → AuthReturn)) (c : ApiActionConfig)
    (env : Env) :
    transportHeadersOf (action (c2Closure x b auth) c env).2 =
      some (assign env.ctxMetadata
        (composedOf (c2Closure x b auth) c env
          (jsOrStr (hget c.headers env.consts.defaultLangHeader) env.consts.defaultLang)
          (jsOrStr (c2Closure x b auth).options.serviceName (c2Closure x b auth).serviceKey)
          (EndpointData.plain ("http://svc")))) := by
  obtain ⟨ev0, heq, hneu⟩ := action_passes (c2Closure x b auth) c env
    (by unfold validationPasses; exact trivial)
  rw [heq]
  simp only [prependEvents]
  rw [afterValidation_endpoint_ok (c2Closure x b auth) c env _ _
    (EndpointData.plain ("http://svc"))
    (show resolveEndpointData (c2Closure x b auth).endpoints
      (c2Closure x b auth).config.endpoint c.args =
      some (EndpointData.plain ("http://svc")) from rfl)]
  simp only [prependEvents]
  rw [transportHeadersOf_append_neutral _ _ hneu,
      transportHeadersOf_append_neutral [Event.endpointResolutionRun] _ ⟨rfl, rfl, rfl⟩,
      actionWithEndpoint_headers]
  rfl

/-- C2 (amended): a header returned by a SYNCHRONOUS auth provider
overrides every value set earlier for the same name (seed headers,
proxy-header functions, pass-through copies): the transmitted `x` is the
auth value `cv`. With no auth override, the value set by the service-level
proxy-header function wins over the pass-through copy of the same inbound
header: the transmitted `x` is `b` whatever the inbound headers carry. An
asynchronous provider's headers are NOT merged (the source does not await
the provider), as the counterexample shows. -/
theorem c2_amended (x b cv : String) (c : ApiActionConfig) (env : Env)
    (hx : x ≠ "x-request-id") :
    (∃ th, transportHeadersOf
        (action (c2Closure x b (some (fun _ => AuthReturn.value (some [(x, some cv)])))) c env).2 =
        some th ∧ hget th x = some cv) ∧
    (∃ th, transportHeadersOf (action (c2Closure x b none) c env).2 = some th ∧
      hget th x = some b) := by
  constructor
  · refine ⟨_, c2_transport_headers x b _ c env, ?_⟩
    apply hget_assign_right_of_some
    · exact nodupKeys_omitUndefined _ (nodupKeys_composePreOmit _ _ _ _ _ _ _ _ _)
    · exact hget_omitUndefined_of_some _ _ _
        (c2_preOmit_auth x b cv env c.headers c.requestId _ _ _ c.authArgs)
  · refine ⟨_, c2_transport_headers x b none c env, ?_⟩
    apply hget_assign_right_of_some
    · exact nodupKeys_omitUndefined _ (nodupKeys_composePreOmit _ _ _ _ _ _ _ _ _)
    · exact hget_omitUndefined_of_some _ _ _
        (c2_preOmit_noauth x b env c.headers c.requestId _ _ _ c.authArgs hx)

/-- Closure whose auth provider is asynchronous: it resolves to
`x-custom: 3`, but the source never awaits it. -/
def c2AsyncClosure : RestActionClosure :=
  c2Closure ("x-custom") ("2")
    (some (fun _ => AuthReturn.promise (some [("x-custom", some ("3"))])))

/-- Call with the inbound header `x-custom: 1`. -/
def c2Call : ApiActionConfig :=
  { args := "a", headers := [("x-custom", some ("1"))] }

/-- C2 counterexample: with inbound `x-custom=1`, a service proxy-header
function returning `x-custom=2` and an ASYNCHRONOUS auth provider
resolving to `x-custom=3`, the transmitted header is `2`, not `3`: line
189 does not await the provider, and `Object.assign` over the pending
promise copies no headers. -/
theorem c2_counterexample :
    (transportHeadersOf (action c2AsyncClosure c2Call env0).2).map
      (fun th => hget th ("x-custom")) = some (some ("2")) := rfl

/-- Witness for C2 at the spec's concrete values 1/2/3. -/
theorem c2_witness :
    (("x-custom" : String) ≠ "x-request-id") ∧
    ((∃ th, transportHeadersOf
        (action (c2Closure ("x-custom") ("2")
          (some (fun _ => AuthReturn.value (some [("x-custom", some ("3"))]))))
          c2Call env0).2 = some th ∧ hget th ("x-custom") = some ("3")) ∧
     (∃ th, transportHeadersOf (action (c2Closure ("x-custom") ("2") none) c2Call env0).2 =
        some th ∧ hget th ("x-custom") = some ("2"))) :=
  ⟨by decide, c2_amended ("x-custom") ("2") ("3") c2Call env0 (by decide)⟩

/-- C4 (amended): the rejection shape differs per failure path. A
validation failure rejects with `{error{status, code, message, details},
debugHeaders}` — without a request id in the error. An
endpoint-resolution failure rejects with `{error{status, code, message}}`
only — no details, no request id, and no debugHeaders field at all. Only
a transport failure rejects with `{error{...normalized fields,
requestId}, debugHeaders}`, carrying the call's request id. -/
theorem c4_amended (A : RestActionClosure) (c : ApiActionConfig) (env : Env) :
    (∀ schema inv,
      (A.config.validationSchema <|> A.options.validationSchema) = some schema →
      env.validateArgs c.args schema = some inv →
      rejectionOf (action A c env).1 =
        some { error :=
               { status := some 400, message := some ("Validation failed")
               , code := some ("INVALID_PARAMS")
               , details := some (ErrorDetails.invalidParams ("Invalid params") inv)
               , requestId := none }
             , debugHeaders := some [] }) ∧
    (validationPasses A c env →
      resolveEndpointData A.endpoints A.config.endpoint c.args = none →
      rejectionOf (action A c env).1 =
        some { error :=
               { status := some 400, code := some ("ENDPOINT_NOT_FOUND")
               , message := some ("Gateway config error. Endpoint has been not found in service \"" ++ A.serviceKey ++ "\"")
               , details := none, requestId := none }
             , debugHeaders := none }) ∧
    (∀ ed err, validationPasses A c env →
      resolveEndpointData A.endpoints A.config.endpoint c.args = some ed →
      env.transport = Except.error err →
      ∃ dh, rejectionOf (action A c env).1 =
        some { error := failureGatewayError
                (normalizeRestError A.config env c.args
                  (jsOrStr (hget c.headers env.consts.defaultLangHeader)
                    env.consts.defaultLang) err).1
                c.requestId
             , debugHeaders := some dh }) := by
  refine ⟨?_, ?_, ?_⟩
  · intro schema inv hs hinv
    rw [action_validation_failure A c env schema inv hs hinv]
    rfl
  · intro hv he
    obtain ⟨ev0, heq, hneu⟩ := action_passes A c env hv
    rw [heq, afterValidation_endpoint_failure A c env _ _ he]
    rfl
  · intro ed err hv he ht
    obtain ⟨ev0, heq, hneu⟩ := action_passes A c env hv
    rw [heq, afterValidation_endpoint_ok A c env _ _ ed he]
    simp only [prependEvents]
    obtain ⟨dh, hres⟩ := actionWithEndpoint_result_error A c env
      (jsOrStr (hget c.headers env.consts.defaultLangHeader) env.consts.defaultLang)
      (jsOrStr A.options.serviceName A.serviceKey) ed err ht
    exact ⟨dh, by rw [hres]; rfl⟩

/-- Call carrying a request id. -/
def call4 : ApiActionConfig := { args := "a", requestId := some ("rid-1") }

/-- C4 counterexample: an endpoint-resolution failure for a call whose
request id is `rid-1` rejects with an object that has NO `debugHeaders`
field and whose error carries no `requestId` and no `details` — the claim
requires `{error, debugHeaders}` with the error carrying details and the
call's request id on every failing dispatch. -/
theorem c4_counterexample :
    call4.requestId = some ("rid-1") ∧
    rejectionOf (action closure7 call4 env0).1 =
      some { error :=
             { status := some 400, code := some ("ENDPOINT_NOT_FOUND")
             , message := some ("Gateway config error. Endpoint has been not found in service \"svc\"")
             , details := none, requestId := none }
           , debugHeaders := none } :=
  ⟨rfl, rfl⟩

/-- A bare transport error: no status, no response payload. -/
def err5 : RestError := {}

/-- Environment whose transport throws a bare error and whose fallback
parser itself throws. -/
def env5 : Env :=
  { env0 with
      transport := Except.error err5
      parseRestError := fun _ _ => Except.error () }

/-- Witness for C4: its three branches applied at a failing validation, an
unresolvable endpoint, and a transport failure. -/
theorem c4_witness :
    (rejectionOf (action closure8 baseCall env8).1 =
      some { error :=
             { status := some 400, message := some ("Validation failed")
             , code := some ("INVALID_PARAMS")
             , details := some (ErrorDetails.invalidParams ("Invalid params") ["badField"])
             , requestId := none }
           , debugHeaders := some [] }) ∧
    (rejectionOf (action closure7 baseCall env0).1 =
      some { error :=
             { status := some 400, code := some ("ENDPOINT_NOT_FOUND")
             , message := some ("Gateway config error. Endpoint has been not found in service \"svc\"")
             , details := none, requestId := none }
           , debugHeaders := none }) ∧
    (∃ dh, rejectionOf (action baseClosure baseCall env5).1 =
      some { error := failureGatewayError
              (normalizeRestError baseClosure.config env5 baseCall.args
                (jsOrStr (hget baseCall.headers env5.consts.defaultLangHeader)
                  env5.consts.defaultLang) err5).1
              baseCall.requestId
           , debugHeaders := some dh }) :=
  ⟨(c4_amended closure8 baseCall env8).1 ("schema1") (["badField"]) (by rfl) (by rfl),
   (c4_amended closure7 baseCall env0).2.1
     (by unfold validationPasses; exact trivial) (by rfl),
   (c4_amended baseClosure baseCall env5).2.2 (EndpointData.plain ("http://svc")) err5
     (by unfold validationPasses; exact trivial) (by rfl) (by rfl)⟩

/-- C5 (amended): on a transport failure the resolved status — the
normalized error's status when truthy, else the raw error's status when
present, else 500 — is the status reported in the stats record; the
caller's rejection error carries the normalized error's own fields (plus
the request id), so the caller observes the resolved status exactly when
the normalizer produced a nonzero status. -/
theorem c5_amended (A : RestActionClosure) (c : ApiActionConfig) (env : Env)
    (ed : EndpointData) (err : RestError)
    (hv : validationPasses A c env)
    (he : resolveEndpointData A.endpoints A.config.endpoint c.args = some ed)
    (ht : env.transport = Except.error err) :
    statsStatuses (action A c env).2 =
      [resolvedRestStatus
        ((normalizeRestError A.config env c.args
          (jsOrStr (hget c.headers env.consts.defaultLangHeader) env.consts.defaultLang)
          err).1.bind ParsedError.status) err.status] ∧
    (∃ dh, rejectionOf (action A c env).1 =
      some { error := failureGatewayError
              (normalizeRestError A.config env c.args
                (jsOrStr (hget c.headers env.consts.defaultLangHeader)
                  env.consts.defaultLang) err).1
              c.requestId
           , debugHeaders := some dh }) ∧
    (∀ s, (normalizeRestError A.config env c.args
        (jsOrStr (hget c.headers env.consts.defaultLangHeader) env.consts.defaultLang)
        err).1.bind ParsedError.status = some s → s ≠ 0 →
      resolvedRestStatus
        ((normalizeRestError A.config env c.args
          (jsOrStr (hget c.headers env.consts.defaultLangHeader) env.consts.defaultLang)
          err).1.bind ParsedError.status) err.status = s) := by
  obtain ⟨ev0, heq, hneu⟩ := action_passes A c env hv
  refine ⟨?_, ?_, ?_⟩
  · rw [heq, afterValidation_endpoint_ok A c env _ _ ed he]
    simp only [prependEvents]
    rw [statsStatuses_append_neutral _ _ hneu,
        statsStatuses_append_neutral [Event.endpointResolutionRun] _ ⟨rfl, rfl, rfl⟩,
        actionWithEndpoint_stats_error A c env _ _ ed err ht]
  · rw [heq, afterValidation_endpoint_ok A c env _ _ ed he]
    simp only [prependEvents]
    obtain ⟨dh, hres⟩ := actionWithEndpoint_result_error A c env
      (jsOrStr (hget c.headers env.consts.defaultLangHeader) env.consts.defaultLang)
      (jsOrStr A.options.serviceName A.serviceKey) ed err ht
    exact ⟨dh, by rw [hres]; rfl⟩
  · intro s hps hs0
    unfold resolvedRestStatus
    rw [hps]
    simp [hs0]

/-- C5 counterexample: when the raw error carries no status and the
fallback parser throws (the spec's own degenerate case), the stats record
reports the resolved status 500 while the caller's rejection error object
carries NO status — the claim says the caller observes the resolved
status in the rejection's error object. -/
theorem c5_counterexample :
    statsStatuses (action baseClosure baseCall env5).2 = [500] ∧
    (rejectionOf (action baseClosure baseCall env5).1).map
      (fun r => r.error.status) = some none :=
  ⟨rfl, rfl⟩

/-- Witness for C5 at the concrete transport failure of `env5`. -/
theorem c5_witness :
    (statsStatuses (action baseClosure baseCall env5).2 =
      [resolvedRestStatus
        ((normalizeRestError baseClosure.config env5 baseCall.args
          (jsOrStr (hget baseCall.headers env5.consts.defaultLangHeader)
            env5.consts.defaultLang) err5).1.bind ParsedError.status) err5.status]) ∧
    (∃ dh, rejectionOf (action baseClosure baseCall env5).1 =
      some { error := failureGatewayError
              (normalizeRestError baseClosure.config env5 baseCall.args
                (jsOrStr (hget baseCall.headers env5.consts.defaultLangHeader)
                  env5.consts.defaultLang) err5).1
              baseCall.requestId
           , debugHeaders := some dh }) := by
  have h := c5_amended baseClosure baseCall env5 (EndpointData.plain ("http://svc")) err5
    (by unfold validationPasses; exact trivial) (by rfl) (by rfl)
  exact ⟨h.1, h.2.1⟩

/-- C6 (amended): when the parameter producer supplies no headers override
and the tracing metadata carries no undefined entries, the header map
passed to the transport contains no entry whose value is undefined (the
composed map is pruned by `_.omitBy` before transmission). A
producer-supplied override, by contrast, reaches the transport unpruned —
see the counterexample. -/
theorem c6_amended (A : RestActionClosure) (c : ApiActionConfig) (env : Env)
    (ed : EndpointData)
    (hv : validationPasses A c env)
    (he : resolveEndpointData A.endpoints A.config.endpoint c.args = some ed)
    (hmeta : hasUndefinedEntry env.ctxMetadata = false)
    (hparams : ∀ ah : Headers, ((paramsOf A.config c.args ah).1.bind ParamsOutput.headers) = none)
    (th : Headers)
    (hth : transportHeadersOf (action A c env).2 = some th) :
    hasUndefinedEntry th = false := by
  obtain ⟨ev0, heq, hneu⟩ := action_passes A c env hv
  rw [heq, afterValidation_endpoint_ok A c env _ _ ed he] at hth
  simp only [prependEvents] at hth
  rw [transportHeadersOf_append_neutral _ _ hneu,
      transportHeadersOf_append_neutral [Event.endpointResolutionRun] _ ⟨rfl, rfl, rfl⟩,
      actionWithEndpoint_headers, hparams] at hth
  simp only [Option.getD_none] at hth
  injection hth with hx
  rw [← hx]
  exact hasUndef_assign _ _ hmeta (fun p hp => mem_omitUndefined_isSome _ p hp)

/-- Action configuration whose parameter producer overrides the composed
headers with a map containing an undefined entry. -/
def config6 : ApiServiceRestActionConfig :=
  { method := "get", path := PathSpec.fixed ("/items")
  , endpoint := EndpointSelector.name ("main")
  , params := some (fun _ _ => Except.ok (some { headers := some [("x-extra", none)] })) }

/-- Closure with a producer that overrides the headers. -/
def closure6 : RestActionClosure :=
  createRestAction (some endpoints0) config6 "svc" "list" options0

/-- C6 counterexample: a parameter producer returning its own headers
override `{x-extra: undefined}` replaces the composed (pruned) map, and
the header map passed to the transport contains an undefined entry — the
claim says no transmitted header map ever does, the producer-override
case included. -/
theorem c6_counterexample :
    (transportHeadersOf (action closure6 baseCall env0).2).map hasUndefinedEntry =
      some true := rfl

/-- Witness for C6 at a concrete dispatch with no producer override. -/
theorem c6_witness :
    hasUndefinedEntry ((transportHeadersOf (action baseClosure baseCall env0).2).getD []) =
      false :=
  c6_amended baseClosure baseCall env0 (EndpointData.plain ("http://svc"))
    (by unfold validationPasses; exact trivial) (by rfl) (by rfl)
    (fun ah => rfl)
    ((transportHeadersOf (action baseClosure baseCall env0).2).getD []) (by rfl)

end GatewayRest
